import Mathlib

/-!
Verification of the PKCS#15 provisioning engine of `src/tools/pkcs15-init.c`.

The engine is shallowly embedded: the card, the cryptographic provider and
the PKCS#15 encoders are external collaborators and are modelled as an
oracle environment `Env κ` over an abstract card-state type `κ`; the
process-global mutable data (`card`, `p15card`, the profile) is threaded as
an explicit state `St κ`.  Every primitive card interaction additionally
records an `Event` in a trace so that claims of the form "does not evaluate
/ present / write anything further" become statements about the trace.
Machine bytes are `Nat` with an explicit `% 256` where the C code relies on
`u8` wrap-around.  Error codes are distinct negative integers, as in the C
source.
-/

/-- Error returned when an ACL chain hits a `NEVER` entry. -/
def SC_ERROR_SECURITY_STATUS_NOT_SATISFIED : Int := -1211

/-- Error for an absent file; triggers on-demand creation internally. -/
def SC_ERROR_FILE_NOT_FOUND : Int := -1201

/-- Error for an unimplemented feature/algorithm/card combination. -/
def SC_ERROR_NOT_SUPPORTED : Int := -1400

/-- Error for a referenced template/PIN/key that is absent. -/
def SC_ERROR_OBJECT_NOT_FOUND : Int := -1401

/-- Error for caller-supplied data failing an invariant check. -/
def SC_ERROR_INVALID_ARGUMENTS : Int := -1402

/-- Generic internal error; also used when the fuel of a modelled
recursion is exhausted (the C recursion has no such bound). -/
def SC_ERROR_INTERNAL : Int := -1000

/-- ACL method: unconditional pass. -/
def SC_AC_NONE : Nat := 0

/-- ACL method: PIN (CHV) verification. -/
def SC_AC_CHV : Nat := 1

/-- ACL method: secure-messaging key. -/
def SC_AC_PRO : Nat := 3

/-- ACL method: authentication key. -/
def SC_AC_AUT : Nat := 4

/-- ACL method: unconditional failure. -/
def SC_AC_NEVER : Nat := 15

/-- File operation: create a child file (parent DF ACL). -/
def SC_AC_OP_CREATE : Nat := 2

/-- File operation: update binary contents. -/
def SC_AC_OP_UPDATE : Nat := 4

/-- Algorithm tag for RSA. -/
def SC_ALGORITHM_RSA : Nat := 0

/-- Algorithm tag for DSA. -/
def SC_ALGORITHM_DSA : Nat := 1

/-- OpenSSL EVP key-type tag for RSA. -/
def EVP_PKEY_RSA : Nat := 6

/-- OpenSSL EVP key-type tag for DSA. -/
def EVP_PKEY_DSA : Nat := 116

/-- PKCS#15 directory-file kinds (indices into `p15card->df`). -/
def SC_PKCS15_PRKDF : Nat := 0

def SC_PKCS15_PUKDF : Nat := 1

def SC_PKCS15_AODF : Nat := 5

def SC_PKCS15_ODF : Nat := 6

/-- PKCS#15 object types: class mask and the key types used by the code. -/
def SC_PKCS15_TYPE_CLASS_MASK : Nat := 0xF00

def SC_PKCS15_TYPE_PRKEY : Nat := 0x100

def SC_PKCS15_TYPE_PRKEY_RSA : Nat := 0x101

def SC_PKCS15_TYPE_PRKEY_DSA : Nat := 0x102

def SC_PKCS15_TYPE_PUBKEY : Nat := 0x200

def SC_PKCS15_TYPE_PUBKEY_RSA : Nat := 0x201

def SC_PKCS15_TYPE_PUBKEY_DSA : Nat := 0x202

/-- Path of the card's master file, `3F00`. -/
def mfPath : List Nat := [0x3F, 0x00]

/-- An opaque provider key handle (`EVP_PKEY`): its EVP type tag plus an
opaque payload standing for the raw key material. -/
structure PKey where
  ptype : Nat
  payload : Nat
deriving DecidableEq

/-- One entry of an ACL chain: `(method, key reference)`. -/
structure AclEntry where
  method : Nat
  key_ref : Nat
deriving DecidableEq

/-- The ACL entry attached to a new key object (`out->key_acl`): method and
the PIN's reference number (an `int` in the C sources). -/
structure KeyAcl where
  method : Nat
  key_ref : Int
deriving DecidableEq

/-- A card file (`struct sc_file`): path, declared size and the per
operation ACL chains (an association list `operation ↦ chain`). -/
structure File where
  path : List Nat
  size : Nat
  acl : List (Nat × List AclEntry)
deriving DecidableEq

/-- Modelled from the spec: `sc_file_get_acl_entry` (libopensc, not under
`src/`) returns the ACL chain attached to an operation on a file; an
operation with no attached chain yields the empty chain. -/
def sc_file_get_acl_entry (f : File) (op : Nat) : List AclEntry :=
  (f.acl.lookup op).getD []

/-- A non-PIN secret bound to the profile (`struct auth_info`): its ACL
method, its key reference (-1 binds the wildcard "any reference") and the
key bytes. -/
structure AuthInfo where
  type : Nat
  ref : Int
  key : List Nat
deriving DecidableEq

/-- A profile PIN policy (`struct pin_info`), restricted to the fields the
engine reads: its PKCS#15 reference number and the cached PIN secret
(`secret[0]`), absent until entered. -/
structure PinInfo where
  ident : String
  reference : Int
  secret : Option (List Nat)
deriving DecidableEq

/-- A key template (`struct sc_key_template`), doubling as the concrete
key object that `sc_pkcs15init_new_{private,public}_key` fill in. -/
structure KeyTemplate where
  name : String
  label : String
  auth_id : List Nat
  id : List Nat
  usage : Nat
  key_acl : Option KeyAcl
  file : Option File
  path : List Nat
  ptype : Nat
  modulus_length : Nat
deriving DecidableEq

/-- The all-zero key template (`memset(out, 0, sizeof(*out))`). -/
def emptyTemplate : KeyTemplate :=
  { name := "", label := "", auth_id := [], id := [], usage := 0,
    key_acl := none, file := none, path := [], ptype := 0,
    modulus_length := 0 }

/-- A key request (`struct sc_pkcs15init_keyargs`). -/
structure KeyArgs where
  algorithm : Nat
  keybits : Nat
  id : List Nat
  label : Option String
  template_name : Option String
  onboard_keygen : Bool
  pkey : Option PKey
deriving DecidableEq

/-- The zeroed key request (`memset(&keyargs, 0, sizeof(keyargs))`). -/
def emptyKeyArgs : KeyArgs :=
  { algorithm := 0, keybits := 0, id := [], label := none,
    template_name := none, onboard_keygen := false, pkey := none }

/-- A PKCS#15 object registered in an in-memory directory file: its type
tag, identifier, label and the directory-file kind holding it. -/
structure P15Object where
  ptype : Nat
  id : List Nat
  label : String
  df : Nat
deriving DecidableEq

/-- A PIN object visible on the PKCS#15 card (searched by
`sc_pkcs15_find_pin_by_auth_id`): its authentication identifier and its
reference number. -/
structure P15Pin where
  auth_id : List Nat
  reference : Int
deriving DecidableEq

/-- The in-memory PKCS#15 card (`struct sc_pkcs15_card`): the registered
objects, the PIN objects, each directory file's backing segments, and the
dedicated ODF file. -/
structure P15Card where
  objects : List P15Object
  pins : List P15Pin
  dfFiles : List (Nat × List File)
  file_odf : File
deriving DecidableEq

/-- The provisioning profile (`struct sc_profile`), restricted to what the
engine reads: bound non-PIN keys, PIN policies, key templates, the
profile-declared directory files and the file templates searched by path. -/
structure Profile where
  keys : List AuthInfo
  pin_list : List PinInfo
  prkey_list : List KeyTemplate
  pubkey_list : List KeyTemplate
  df : List (Nat × File)
  files : List File
deriving DecidableEq

/-- A primitive interaction recorded in the trace. -/
inductive Event where
  | verifyEntry (method : Nat) (ref : Nat)
  | scVerify (method : Nat) (ref : Nat) (key : List Nat)
  | promptPin (ref : Int)
  | selectFile (p : List Nat)
  | createCall (p : List Nat)
  | updateBinary (off : Nat) (data : List Nat)
  | allocFile (ptype : Nat) (idx : Nat)
deriving DecidableEq

/-- The oracle environment: the card transport and card-family capability
interface (over an abstract card state `κ`), the cryptographic provider,
the PKCS#15 encoders, the secret-prompting collaborator and the
`opt_quiet` flag.  All are external to `src/tools/pkcs15-init.c`. -/
structure Env (κ : Type) where
  select : κ → List Nat → Int × File × κ
  verify : κ → Nat → Nat → List Nat → Int × κ
  create : κ → File → Int × κ
  updateBin : κ → Nat → List Nat → Int × κ
  allocate_file : κ → Nat → Nat → Int × File × κ
  store_rsa : Option (κ → KeyTemplate → PKey → Int × κ)
  store_dsa : Option (κ → KeyTemplate → PKey → Int × κ)
  genRSA : Nat → Option Nat
  genDSA : Nat → Option Nat
  i2dRSA : PKey → List Nat
  rsaSize : PKey → Nat
  dsaSize : PKey → Nat
  encode_df : Nat → Nat → List P15Object → Int × List Nat
  encode_odf : P15Card → Int × List Nat
  promptPin : PinInfo → List Nat
  opt_quiet : Bool

/-- The threaded process state: the card state, the profile, the in-memory
PKCS#15 card and the event trace. -/
structure St (κ : Type) where
  k : κ
  profile : Profile
  p15 : P15Card
  events : List Event
deriving DecidableEq

/-- Append one event to the trace. -/
def emit {κ : Type} (e : Event) (s : St κ) : St κ :=
  { s with events := s.events ++ [e] }

/-- `sc_select_file`: select a path on the card, yielding the result code
and (on success) the selected file as read from the card. -/
def scSelect {κ : Type} (env : Env κ) (p : List Nat) (s : St κ) :
    Int × File × St κ :=
  let r := env.select s.k p
  (r.1, r.2.1, { s with k := r.2.2, events := s.events ++ [Event.selectFile p] })

/-- `sc_verify`: present a secret to the card. -/
def scVerify {κ : Type} (env : Env κ) (method : Nat) (ref : Nat)
    (key : List Nat) (s : St κ) : Int × St κ :=
  let r := env.verify s.k method ref key
  (r.1, { s with k := r.2, events := s.events ++ [Event.scVerify method ref key] })

/-- `sc_create_file`: have the card create a file. -/
def scCreate {κ : Type} (env : Env κ) (f : File) (s : St κ) : Int × St κ :=
  let r := env.create s.k f
  (r.1, { s with k := r.2, events := s.events ++ [Event.createCall f.path] })

/-- `sc_update_binary`: write bytes at an offset of the selected file. -/
def scUpdateBinary {κ : Type} (env : Env κ) (off : Nat) (data : List Nat)
    (s : St κ) : Int × St κ :=
  let r := env.updateBin s.k off data
  (r.1, { s with k := r.2, events := s.events ++ [Event.updateBinary off data] })

/-- `profile->ops->allocate_file`: the capability interface allocates
on-card storage for the object type at the given index. -/
def scAllocate {κ : Type} (env : Env κ) (ptype : Nat) (idx : Nat)
    (s : St κ) : Int × File × St κ :=
  let r := env.allocate_file s.k ptype idx
  (r.1, r.2.1, { s with k := r.2.2, events := s.events ++ [Event.allocFile ptype idx] })

/-- Modelled from the spec: `sc_profile_find_key` (profile.c, not under
`src/`) finds a non-PIN secret bound to a method at a reference; the
reference -1 binds the wildcard "any reference". -/
def sc_profile_find_key (pro : Profile) (method : Nat) (ref : Int) :
    Option AuthInfo :=
  pro.keys.find? (fun a => a.type == method && a.ref == ref)

/-- Modelled from the spec: the secret collaborator prompts for a PIN,
retrying until the length constraints are met, and the PIN is cached in
the policy (`read_one_pin`). -/
def read_one_pin {κ : Type} (env : Env κ) (info : PinInfo) (s : St κ) :
    Int × PinInfo × St κ :=
  let sec := env.promptPin info
  (0, { info with secret := some sec }, emit (Event.promptPin info.reference) s)

/-- Cache a freshly entered secret in the first profile PIN policy with
the given reference (the C code mutates the found list node in place). -/
def setPinSecret (l : List PinInfo) (ref : Int) (sec : List Nat) :
    List PinInfo :=
  match l with
  | [] => []
  | p :: rest =>
    if p.reference == ref then { p with secret := some sec } :: rest
    else p :: setPinSecret rest ref sec

/-- `do_verify_pin`: satisfy one ACL entry.  Looks up a bound non-PIN key
at the exact reference, then at the wildcard; for `SC_AC_CHV` falls back
to the profile PIN policy with a matching reference number, prompting and
caching if its secret is not set; with no secret found it returns 0.  A
`verifyEntry` event records that the entry was evaluated. -/
def do_verify_pin {κ : Type} (env : Env κ) (method : Nat) (reference : Nat)
    (s : St κ) : Int × St κ :=
  let s := emit (Event.verifyEntry method reference) s
  let doAuth := fun (key : List Nat) (s : St κ) =>
    let rs := scVerify env method reference key s
    if rs.1 ≠ 0 then rs else ((0 : Int), rs.2)
  match sc_profile_find_key s.profile method ((reference : Int)) with
  | some auth => doAuth auth.key s
  | none =>
    match sc_profile_find_key s.profile method (-1) with
    | some auth => doAuth auth.key s
    | none =>
      if method ≠ SC_AC_CHV then (0, s)
      else
        match s.profile.pin_list.find? (fun i => i.reference == (reference : Int)) with
        | none => (0, s)
        | some info =>
          match info.secret with
          | some pin => scVerify env SC_AC_CHV reference pin s
          | none =>
            let ris := read_one_pin env info s
            if ris.1 < 0 then (ris.1, ris.2.2)
            else
              let pin := ris.2.1.secret.getD []
              let s1 := ris.2.2
              let pl := setPinSecret s1.profile.pin_list ((reference : Int)) pin
              let s2 := { s1 with profile := { s1.profile with pin_list := pl } }
              scVerify env SC_AC_CHV reference pin s2

/-- The ACL-chain walk of `sc_pkcs15init_authenticate`:  `NEVER` fails
immediately, `NONE` passes immediately, any other entry is handed to
`do_verify_pin` and a nonzero result stops the walk. -/
def authLoop {κ : Type} (env : Env κ) : List AclEntry → St κ → Int × St κ
  | [], s => (0, s)
  | a :: rest, s =>
    if a.method = SC_AC_NEVER then (SC_ERROR_SECURITY_STATUS_NOT_SATISFIED, s)
    else if a.method = SC_AC_NONE then (0, s)
    else
      let rs := do_verify_pin env a.method a.key_ref s
      if rs.1 = 0 then authLoop env rest rs.2 else rs

/-- `sc_pkcs15init_authenticate`: walk the ACL chain of an operation. -/
def sc_pkcs15init_authenticate {κ : Type} (env : Env κ) (file : File)
    (op : Nat) (s : St κ) : Int × St κ :=
  authLoop env (sc_file_get_acl_entry file op) s

/-- Run `do_verify_pin` over a list of entries, stopping at (and
returning) the first nonzero result; the specification-side companion of
`authLoop` for chains free of `NEVER`/`NONE`. -/
def verifyRun {κ : Type} (env : Env κ) : List AclEntry → St κ → Int × St κ
  | [], s => (0, s)
  | a :: rest, s =>
    let rs := do_verify_pin env a.method a.key_ref s
    if rs.1 = 0 then verifyRun env rest rs.2 else rs

/-- The list of `do_verify_pin` results actually produced along a run
(truncated at the first failure). -/
def verifyResults {κ : Type} (env : Env κ) : List AclEntry → St κ → List Int
  | [], _ => []
  | a :: rest, s =>
    let rs := do_verify_pin env a.method a.key_ref s
    if rs.1 = 0 then rs.1 :: verifyResults env rest rs.2 else [rs.1]

/-- The first nonzero result of a run, 0 if every verification passed. -/
def firstErr (rs : List Int) : Int :=
  (rs.find? (fun r => r ≠ 0)).getD 0

/-- The state components other than the trace are untouched by `emit`. -/
@[simp]
theorem emit_profile {κ : Type} (e : Event) (s : St κ) :
    (emit e s).profile = s.profile := rfl

@[simp]
theorem emit_k {κ : Type} (e : Event) (s : St κ) : (emit e s).k = s.k := rfl

@[simp]
theorem emit_p15 {κ : Type} (e : Event) (s : St κ) : (emit e s).p15 = s.p15 := rfl

/-- C8: for an ACL entry whose method is not PIN-verify, if the profile
binds no key for that method at the exact reference and none at the
wildcard reference, `do_verify_pin` returns success immediately: the
returned state carries only the entry-evaluation marker and no `scVerify`
or prompt event — nothing was presented. -/
theorem do_verify_pin_missing_nonpin_secret {κ : Type} (env : Env κ)
    (method reference : Nat) (s : St κ)
    (hm : method ≠ SC_AC_CHV)
    (h1 : sc_profile_find_key s.profile method ((reference : Int)) = none)
    (h2 : sc_profile_find_key s.profile method (-1) = none) :
    do_verify_pin env method reference s =
      (0, emit (Event.verifyEntry method reference) s) := by
  unfold do_verify_pin
  simp [emit_profile, h1, h2, hm]

/-- Concrete card model over the trivial card state, used by witnesses. -/
def unitFile : File := { path := [], size := 0, acl := [] }

def envU : Env Unit :=
  { select := fun _ _ => (SC_ERROR_FILE_NOT_FOUND, unitFile, ())
    verify := fun _ _ _ _ => (0, ())
    create := fun _ _ => (0, ())
    updateBin := fun _ _ d => (Int.ofNat d.length, ())
    allocate_file := fun _ _ _ => (0, unitFile, ())
    store_rsa := none
    store_dsa := none
    genRSA := fun _ => none
    genDSA := fun _ => none
    i2dRSA := fun _ => []
    rsaSize := fun _ => 0
    dsaSize := fun _ => 0
    encode_df := fun _ _ _ => (0, [])
    encode_odf := fun _ => (0, [])
    promptPin := fun _ => [1, 2, 3, 4]
    opt_quiet := false }

def emptyProfile : Profile :=
  { keys := [], pin_list := [], prkey_list := [], pubkey_list := [],
    df := [], files := [] }

def emptyP15 : P15Card :=
  { objects := [], pins := [], dfFiles := [], file_odf := unitFile }

def st0 : St Unit :=
  { k := (), profile := emptyProfile, p15 := emptyP15, events := [] }

/-- Witness for C8 at a concrete secure-messaging entry with no bound key. -/
theorem do_verify_pin_missing_nonpin_secret_witness :
    do_verify_pin envU SC_AC_PRO 5 st0 =
      (0, emit (Event.verifyEntry SC_AC_PRO 5) st0) :=
  do_verify_pin_missing_nonpin_secret envU SC_AC_PRO 5 st0 (by decide)
    (by decide) (by decide)

/-- C9: the lenient missing-secret pass also applies to PIN-verify
entries: with no key bound at the exact or wildcard reference and no
profile PIN policy with a matching reference number, `do_verify_pin`
returns 0 without prompting or presenting anything (the returned state
carries only the entry-evaluation marker). -/
theorem do_verify_pin_missing_chv_secret {κ : Type} (env : Env κ)
    (reference : Nat) (s : St κ)
    (h1 : sc_profile_find_key s.profile SC_AC_CHV ((reference : Int)) = none)
    (h2 : sc_profile_find_key s.profile SC_AC_CHV (-1) = none)
    (h3 : s.profile.pin_list.find?
        (fun i => i.reference == (reference : Int)) = none) :
    do_verify_pin env SC_AC_CHV reference s =
      (0, emit (Event.verifyEntry SC_AC_CHV reference) s) := by
  unfold do_verify_pin
  simp [emit_profile, h1, h2, h3]

/-- Witness for C9 at a concrete CHV entry with no key and no policy. -/
theorem do_verify_pin_missing_chv_secret_witness :
    do_verify_pin envU 1 7 st0 =
      (0, emit (Event.verifyEntry SC_AC_CHV 7) st0) :=
  do_verify_pin_missing_chv_secret envU 7 st0 (by decide) (by decide)
    (by decide)

/-- Walking a chain that starts with entries that are neither `NEVER` nor
`NONE` first runs exactly those entries, and continues past them only if
every one of them verified successfully. -/
theorem authLoop_append_clean {κ : Type} (env : Env κ) (pre : List AclEntry)
    (hclean : ∀ e ∈ pre, e.method ≠ SC_AC_NEVER ∧ e.method ≠ SC_AC_NONE) :
    ∀ (tail : List AclEntry) (s : St κ),
      authLoop env (pre ++ tail) s =
        if (verifyRun env pre s).1 = 0 then
          authLoop env tail (verifyRun env pre s).2
        else verifyRun env pre s := by
  induction pre with
  | nil => intro tail s; simp [verifyRun]
  | cons a pre ih =>
    intro tail s
    have ha := hclean a (List.mem_cons_self a pre)
    have hpre : ∀ e ∈ pre, e.method ≠ SC_AC_NEVER ∧ e.method ≠ SC_AC_NONE :=
      fun e he => hclean e (List.mem_cons_of_mem a he)
    simp only [List.cons_append, authLoop, verifyRun]
    rw [if_neg ha.1, if_neg ha.2]
    by_cases hr : (do_verify_pin env a.method a.key_ref s).1 = 0
    · simp only [hr, if_true, ite_true]
      exact ih hpre tail (do_verify_pin env a.method a.key_ref s).2
    · simp [hr]

/-- A successful head result is skipped by `firstErr`. -/
theorem firstErr_cons_zero (l : List Int) :
    firstErr ((0 : Int) :: l) = firstErr l := by
  simp [firstErr]

/-- A failing head result is what `firstErr` returns. -/
theorem firstErr_cons_ne (r : Int) (l : List Int) (h : r ≠ 0) :
    firstErr (r :: l) = r := by
  simp [firstErr, h]

/-- On a chain free of `NEVER` and `NONE` entries the walk is exactly the
sequential verification run. -/
theorem authLoop_clean {κ : Type} (env : Env κ) (pre : List AclEntry)
    (hclean : ∀ e ∈ pre, e.method ≠ SC_AC_NEVER ∧ e.method ≠ SC_AC_NONE) :
    ∀ s : St κ, authLoop env pre s = verifyRun env pre s := by
  induction pre with
  | nil => intro s; simp [authLoop, verifyRun]
  | cons a pre ih =>
    intro s
    have ha := hclean a (List.mem_cons_self a pre)
    have hpre : ∀ e ∈ pre, e.method ≠ SC_AC_NEVER ∧ e.method ≠ SC_AC_NONE :=
      fun e he => hclean e (List.mem_cons_of_mem a he)
    simp only [authLoop, verifyRun]
    rw [if_neg ha.1, if_neg ha.2]
    by_cases hr : (do_verify_pin env a.method a.key_ref s).1 = 0
    · simp only [hr, ite_true]
      exact ih hpre (do_verify_pin env a.method a.key_ref s).2
    · simp [hr]

/-- The first nonzero verification result along a clean run is exactly the
result of the run. -/
theorem firstErr_verifyResults {κ : Type} (env : Env κ) :
    ∀ (pre : List AclEntry) (s : St κ),
      firstErr (verifyResults env pre s) = (verifyRun env pre s).1 := by
  intro pre
  induction pre with
  | nil => intro s; simp [verifyResults, verifyRun, firstErr]
  | cons a pre ih =>
    intro s
    by_cases hr : (do_verify_pin env a.method a.key_ref s).1 = 0
    · have h1 : verifyResults env (a :: pre) s =
          (0 : Int) :: verifyResults env pre (do_verify_pin env a.method a.key_ref s).2 := by
        simp [verifyResults, hr]
      rw [h1, firstErr_cons_zero, ih]
      simp [verifyRun, hr]
    · have h1 : verifyResults env (a :: pre) s =
          [(do_verify_pin env a.method a.key_ref s).1] := by
        simp [verifyResults, hr]
      rw [h1, firstErr_cons_ne _ _ hr]
      simp [verifyRun, hr]

/-- A zero `firstErr` means every produced result was zero. -/
theorem firstErr_eq_zero_iff (rs : List Int) :
    firstErr rs = 0 ↔ ∀ r ∈ rs, r = 0 := by
  unfold firstErr
  cases h : rs.find? (fun r => r ≠ 0) with
  | none =>
    simp only [Option.getD_none, true_iff]
    intro r hr
    have := List.find?_eq_none.mp h r hr
    simpa using this
  | some r =>
    have hmem := List.mem_of_find?_eq_some h
    have hpred := List.find?_some h
    have hne : r ≠ 0 := by simpa using hpred
    simp only [Option.getD_some]
    constructor
    · intro h0; exact absurd h0 hne
    · intro hall; exact absurd (hall r hmem) hne

/-- C1: `sc_pkcs15init_authenticate` evaluates the ACL chain left to
right.  Let `pre` be a prefix of entries that are neither `NEVER` nor
`NONE` and whose verifications all succeed.  (1) If a `NEVER` entry
follows `pre`, authentication fails with
`SC_ERROR_SECURITY_STATUS_NOT_SATISFIED` and the returned state is exactly
the state after `pre` — no entry after the `NEVER` is evaluated.  (2) If a
`NONE` entry follows `pre`, authentication succeeds immediately with the
state after `pre`.  (3) If the whole chain is `pre`, the result is the
first failing verification's error (0 when every verification succeeds),
and it is 0 exactly when every produced verification result is 0. -/
theorem sc_pkcs15init_authenticate_chain_spec {κ : Type} (env : Env κ)
    (file : File) (op : Nat) (s : St κ) (pre : List AclEntry)
    (hclean : ∀ e ∈ pre, e.method ≠ SC_AC_NEVER ∧ e.method ≠ SC_AC_NONE) :
    (∀ ref rest,
        sc_file_get_acl_entry file op = pre ++ AclEntry.mk SC_AC_NEVER ref :: rest →
        (verifyRun env pre s).1 = 0 →
        sc_pkcs15init_authenticate env file op s =
          (SC_ERROR_SECURITY_STATUS_NOT_SATISFIED, (verifyRun env pre s).2))
    ∧ (∀ ref rest,
        sc_file_get_acl_entry file op = pre ++ AclEntry.mk SC_AC_NONE ref :: rest →
        (verifyRun env pre s).1 = 0 →
        sc_pkcs15init_authenticate env file op s = (0, (verifyRun env pre s).2))
    ∧ (sc_file_get_acl_entry file op = pre →
        sc_pkcs15init_authenticate env file op s =
          (firstErr (verifyResults env pre s), (verifyRun env pre s).2)
        ∧ ((sc_pkcs15init_authenticate env file op s).1 = 0 ↔
            ∀ r ∈ verifyResults env pre s, r = 0)) := by
  refine ⟨?_, ?_, ?_⟩
  · intro ref rest hchain hok
    unfold sc_pkcs15init_authenticate
    rw [hchain, authLoop_append_clean env pre hclean, if_pos hok]
    simp [authLoop, SC_AC_NEVER]
  · intro ref rest hchain hok
    unfold sc_pkcs15init_authenticate
    rw [hchain, authLoop_append_clean env pre hclean, if_pos hok]
    simp [authLoop, SC_AC_NEVER, SC_AC_NONE]
  · intro hchain
    have hmain : sc_pkcs15init_authenticate env file op s =
        (firstErr (verifyResults env pre s), (verifyRun env pre s).2) := by
      unfold sc_pkcs15init_authenticate
      rw [hchain, authLoop_clean env pre hclean, firstErr_verifyResults]
    refine ⟨hmain, ?_⟩
    rw [hmain]
    exact firstErr_eq_zero_iff (verifyResults env pre s)

/-- Profile and state for the C1 witness: one secure-messaging key bound
at reference 1, so that the single clean entry before the `NEVER`
verifies successfully. -/
def profC1 : Profile :=
  { keys := [{ type := SC_AC_PRO, ref := 1, key := [9] }], pin_list := [],
    prkey_list := [], pubkey_list := [], df := [], files := [] }

def stC1 : St Unit :=
  { k := (), profile := profC1, p15 := emptyP15, events := [] }

def fileC1 : File :=
  { path := [0x3F, 0x00], size := 0,
    acl := [(SC_AC_OP_CREATE,
      [{ method := SC_AC_PRO, key_ref := 1 },
       { method := SC_AC_NEVER, key_ref := 0 },
       { method := SC_AC_CHV, key_ref := 1 }])] }

/-- Witness for C1: a chain `PRO(1), NEVER, CHV(1)` whose first entry
verifies; authentication stops at the `NEVER` with
`SC_ERROR_SECURITY_STATUS_NOT_SATISFIED` and the `CHV` entry is never
evaluated. -/
theorem sc_pkcs15init_authenticate_chain_spec_witness :
    sc_pkcs15init_authenticate envU fileC1 SC_AC_OP_CREATE stC1 =
      (SC_ERROR_SECURITY_STATUS_NOT_SATISFIED,
        (verifyRun envU [{ method := SC_AC_PRO, key_ref := 1 }] stC1).2) :=
  (sc_pkcs15init_authenticate_chain_spec envU fileC1 SC_AC_OP_CREATE stC1
      [{ method := SC_AC_PRO, key_ref := 1 }] (by decide)).1 0
      [{ method := SC_AC_CHV, key_ref := 1 }] (by decide) (by decide)

/-- Modelled from the spec: `sc_profile_find_file_by_path` (profile.c, not
under `src/`) looks up the profile's file template for exactly the given
path. -/
def sc_profile_find_file_by_path (pro : Profile) (p : List Nat) :
    Option File :=
  pro.files.find? (fun f => f.path == p)

/-- The parent-path computation of `do_select_parent`: shorten the path by
two bytes if it has at least two, and map an empty result to `3F00`. -/
def codeParentPath (p : List Nat) : List Nat :=
  let q := if p.length ≥ 2 then p.take (p.length - 2) else p
  if q.length = 0 then mfPath else q

/-- `do_select_parent`: compute the parent's path and select it; on
"file not found" for a non-`3F00` parent, look up the profile template for
that exact path, create it with the supplied creation function and
re-select.  The creation function is `sc_pkcs15init_create_file` itself,
passed explicitly to expose the recursion. -/
def do_select_parent {κ : Type} (env : Env κ)
    (createFn : File → St κ → Int × St κ) (file : File) (s : St κ) :
    Int × File × St κ :=
  let path := codeParentPath file.path
  let r1 := scSelect env path s
  if r1.1 = SC_ERROR_FILE_NOT_FOUND ∧ path.length ≠ 2 then
    match sc_profile_find_file_by_path r1.2.2.profile path with
    | some f2 =>
      let r2 := createFn f2 r1.2.2
      if r2.1 = 0 then scSelect env path r2.2
      else (r2.1, r1.2.1, r2.2)
    | none => (r1.1, r1.2.1, r1.2.2)
  else r1

/-- `sc_pkcs15init_create_file`: select (creating on demand) the parent,
authenticate the parent's CREATE ACL, then perform the native create.
The `fuel` bounds the recursion depth through absent ancestor
directories; the C recursion carries no such bound. -/
def sc_pkcs15init_create_file {κ : Type} (env : Env κ) :
    Nat → File → St κ → Int × St κ
  | 0, _, s => (SC_ERROR_INTERNAL, s)
  | fuel + 1, file, s =>
    let rps := do_select_parent env (sc_pkcs15init_create_file env fuel) file s
    if rps.1 < 0 then (rps.1, rps.2.2)
    else
      let ra := sc_pkcs15init_authenticate env rps.2.1 SC_AC_OP_CREATE rps.2.2
      if ra.1 < 0 then (ra.1, ra.2)
      else scCreate env file ra.2

/-- The tail of `sc_pkcs15init_update_file` once the target is selected:
authenticate the UPDATE ACL, then write the whole payload at offset 0. -/
def sc_pkcs15init_update_file_tail {κ : Type} (env : Env κ) (file : File)
    (data : List Nat) (s : St κ) : Int × File × St κ :=
  let ra := sc_pkcs15init_authenticate env file SC_AC_OP_UPDATE s
  if 0 ≤ ra.1 then
    let ru := scUpdateBinary env 0 data ra.2
    (ru.1, file, ru.2)
  else (ra.1, file, ra.2)

/-- `sc_pkcs15init_update_file`: select the target; on failure raise the
declared size to at least the payload length and, if the failure was
"file not found", create the file and re-select; then authenticate the
UPDATE ACL and write the payload.  The (possibly resized) file structure
is returned alongside, mirroring the in-place mutation of `file->size`. -/
def sc_pkcs15init_update_file {κ : Type} (env : Env κ) (fuel : Nat)
    (file : File) (data : List Nat) (s : St κ) : Int × File × St κ :=
  let rs := scSelect env file.path s
  if rs.1 < 0 then
    let file := if file.size < data.length then
        { file with size := data.length } else file
    if rs.1 ≠ SC_ERROR_FILE_NOT_FOUND then (rs.1, file, rs.2.2)
    else
      let rc := sc_pkcs15init_create_file env fuel file rs.2.2
      if rc.1 < 0 then (rc.1, file, rc.2)
      else
        let rs2 := scSelect env file.path rc.2
        if rs2.1 < 0 then (rs2.1, file, rs2.2.2)
        else sc_pkcs15init_update_file_tail env file data rs2.2.2
  else sc_pkcs15init_update_file_tail env file data rs.2.2

/-- The two-byte components of a card path. -/
def pathComponents : List Nat → List (List Nat)
  | a :: b :: rest => [a, b] :: pathComponents rest
  | _ => []

/-- Drop the last path component (specification-side formulation). -/
def dropLastComponent (p : List Nat) : List Nat :=
  ((pathComponents p).dropLast).flatten

/-- The parent directory path as the specification words it: drop the last
path component; an empty result is the master file. -/
def specParentPath (p : List Nat) : List Nat :=
  if dropLastComponent p = [] then mfPath else dropLastComponent p

/-- For an even-length path, shortening by two bytes is dropping the last
path component. -/
theorem take_sub_two_even :
    ∀ p : List Nat, p.length % 2 = 0 →
      p.take (p.length - 2) = dropLastComponent p
  | [], _ => by simp [dropLastComponent, pathComponents]
  | [a], h => by simp at h
  | [a, b], _ => by simp [dropLastComponent, pathComponents]
  | [a, b, c], h => by
    simp only [List.length_cons, List.length_nil] at h
    omega
  | a :: b :: c :: d :: rest, h => by
    have hr : (c :: d :: rest).length % 2 = 0 := by
      simp only [List.length_cons] at h ⊢
      omega
    have ih := take_sub_two_even (c :: d :: rest) hr
    have hlen : (a :: b :: c :: d :: rest).length - 2 =
        ((c :: d :: rest).length - 2) + 2 := by
      simp only [List.length_cons]
      omega
    rw [hlen]
    have hpc : pathComponents (c :: d :: rest) ≠ [] := by
      simp [pathComponents]
    calc (a :: b :: c :: d :: rest).take (((c :: d :: rest).length - 2) + 2)
        = a :: b :: (c :: d :: rest).take ((c :: d :: rest).length - 2) := by
          simp [List.take_succ_cons]
      _ = a :: b :: dropLastComponent (c :: d :: rest) := by rw [ih]
      _ = dropLastComponent (a :: b :: c :: d :: rest) := by
          simp only [dropLastComponent, pathComponents]
          rw [List.dropLast_cons_of_ne_nil
            (by simp : ([c, d] : List Nat) :: pathComponents rest ≠ [])]
          simp

/-- For an even-length path the code's parent-path computation coincides
with the specification's. -/
theorem codeParentPath_eq_spec (p : List Nat) (heven : p.length % 2 = 0) :
    codeParentPath p = specParentPath p := by
  unfold codeParentPath specParentPath
  cases p with
  | nil => simp [dropLastComponent, pathComponents]
  | cons a q =>
    cases q with
    | nil => simp at heven
    | cons b q =>
      have h2 : (a :: b :: q).length ≥ 2 := by
        simp only [List.length_cons]
        omega
      rw [if_pos h2, take_sub_two_even _ heven]
      by_cases hz : dropLastComponent (a :: b :: q) = []
      · simp [hz]
      · rw [if_neg hz, if_neg (by simpa [List.length_eq_zero] using hz)]

/-- For an even-length path rooted at the master file, the code's test
"parent path has length 2" captures "the parent is the master file". -/
theorem codeParentPath_len_iff (p : List Nat) (heven : p.length % 2 = 0)
    (hroot : p ≠ [] → p.take 2 = mfPath) :
    ((codeParentPath p).length = 2 ↔ codeParentPath p = mfPath) := by
  constructor
  · intro hlen
    unfold codeParentPath at hlen ⊢
    cases p with
    | nil => simp
    | cons a q =>
      have hge : (a :: q).length ≥ 2 := by
        simp only [List.length_cons] at heven ⊢
        omega
      rw [if_pos hge] at hlen ⊢
      set t := (a :: q).take ((a :: q).length - 2) with ht
      by_cases hz : t.length = 0
      · rw [if_pos hz] at hlen ⊢
      · rw [if_neg hz] at hlen ⊢
        have hmin : t.length = (a :: q).length - 2 := by
          rw [ht, List.length_take]
          omega
        have hlen4 : (a :: q).length = 4 := by omega
        have ht2 : t = (a :: q).take 2 := by rw [ht, hlen4]
        rw [ht2, hroot (by simp)]
  · intro hmf
    rw [hmf]
    rfl

/-- One unfolding of `sc_pkcs15init_create_file` at positive fuel. -/
theorem create_file_succ_eq {κ : Type} (env : Env κ) (fuel : Nat)
    (file : File) (s : St κ) :
    sc_pkcs15init_create_file env (fuel + 1) file s =
      (let rps := do_select_parent env
        (sc_pkcs15init_create_file env fuel) file s
       if rps.1 < 0 then (rps.1, rps.2.2)
       else
         let ra := sc_pkcs15init_authenticate env rps.2.1 SC_AC_OP_CREATE rps.2.2
         if ra.1 < 0 then (ra.1, ra.2)
         else scCreate env file ra.2) := rfl

/-- C2: `sc_pkcs15init_create_file` computes the parent path by dropping
the last path component (an empty result being the master file `3F00`) and
selects it.  For a path rooted at the master file: a selection success
leads to authenticating the parent's CREATE ACL and only then the native
create; a selection error other than `FILE_NOT_FOUND` is propagated
unchanged; on `FILE_NOT_FOUND` with a non-master parent the profile's
template for exactly the parent path is looked up and created through the
same `sc_pkcs15init_create_file`, followed by a re-select (a missing
template propagates `FILE_NOT_FOUND`, a failing recursive creation
propagates its error). -/
theorem sc_pkcs15init_create_file_spec {κ : Type} (env : Env κ) (fuel : Nat)
    (file : File) (s : St κ)
    (heven : file.path.length % 2 = 0)
    (hroot : file.path ≠ [] → file.path.take 2 = mfPath) :
    codeParentPath file.path = specParentPath file.path
    ∧ (∀ r pf s1, scSelect env (specParentPath file.path) s = (r, pf, s1) →
        ((0 ≤ r →
          sc_pkcs15init_create_file env (fuel + 1) file s =
            (let ra := sc_pkcs15init_authenticate env pf SC_AC_OP_CREATE s1
             if ra.1 < 0 then (ra.1, ra.2) else scCreate env file ra.2))
        ∧ (r < 0 → r ≠ SC_ERROR_FILE_NOT_FOUND →
          sc_pkcs15init_create_file env (fuel + 1) file s = (r, s1))
        ∧ (r = SC_ERROR_FILE_NOT_FOUND →
           specParentPath file.path ≠ mfPath →
           ((sc_profile_find_file_by_path s1.profile
                (specParentPath file.path) = none →
              sc_pkcs15init_create_file env (fuel + 1) file s =
                (SC_ERROR_FILE_NOT_FOUND, s1))
           ∧ (∀ f2, sc_profile_find_file_by_path s1.profile
                (specParentPath file.path) = some f2 →
               ∀ rc s2,
                 sc_pkcs15init_create_file env fuel f2 s1 = (rc, s2) →
                 ((rc = 0 →
                   sc_pkcs15init_create_file env (fuel + 1) file s =
                     (let rs2 := scSelect env (specParentPath file.path) s2
                      if rs2.1 < 0 then (rs2.1, rs2.2.2)
                      else
                        let ra := sc_pkcs15init_authenticate env rs2.2.1
                          SC_AC_OP_CREATE rs2.2.2
                        if ra.1 < 0 then (ra.1, ra.2)
                        else scCreate env file ra.2))
                 ∧ (rc < 0 →
                   sc_pkcs15init_create_file env (fuel + 1) file s =
                     (rc, s2)))))))) := by
  have hpp := codeParentPath_eq_spec file.path heven
  have hiff := codeParentPath_len_iff file.path heven hroot
  rw [hpp] at hiff
  refine ⟨hpp, ?_⟩
  intro r pf s1 hsel
  refine ⟨?_, ?_, ?_⟩
  · intro hr0
    have hnotfnf : ¬(r = SC_ERROR_FILE_NOT_FOUND
        ∧ (specParentPath file.path).length ≠ 2) := by
      rintro ⟨h1, _⟩
      rw [h1] at hr0
      norm_num [SC_ERROR_FILE_NOT_FOUND] at hr0
    rw [create_file_succ_eq]
    unfold do_select_parent
    rw [hpp]
    simp only [ne_eq]
    rw [hsel]
    simp [hnotfnf, not_lt.mpr hr0]
  · intro hneg hnfnf
    have hnotfnf : ¬(r = SC_ERROR_FILE_NOT_FOUND
        ∧ (specParentPath file.path).length ≠ 2) := by
      rintro ⟨h1, _⟩
      exact hnfnf h1
    rw [create_file_succ_eq]
    unfold do_select_parent
    rw [hpp]
    simp only [ne_eq]
    rw [hsel]
    simp [hnotfnf, hneg]
  · intro hfnf hnotmf
    have hlen2 : (specParentPath file.path).length ≠ 2 := fun h =>
      hnotmf (hiff.mp h)
    have hfnfneg : SC_ERROR_FILE_NOT_FOUND < 0 := by
      norm_num [SC_ERROR_FILE_NOT_FOUND]
    constructor
    · intro hnone
      rw [create_file_succ_eq]
      unfold do_select_parent
      rw [hpp]
      simp only [ne_eq]
      rw [hsel]
      simp only [hfnf, hlen2, ne_eq, not_false_eq_true, and_self, if_true,
        ite_true, hnone]
      simp [hfnfneg]
    · intro f2 hsome rc s2 hrec
      constructor
      · intro hrc0
        rw [create_file_succ_eq]
        unfold do_select_parent
        rw [hpp]
        simp only [ne_eq]
        rw [hsel]
        simp only [hfnf, hlen2, ne_eq, not_false_eq_true, and_self, if_true,
          ite_true, hsome]
        rw [hrec]
        simp [hrc0]
      · intro hrcneg
        rw [create_file_succ_eq]
        unfold do_select_parent
        rw [hpp]
        simp only [ne_eq]
        rw [hsel]
        simp only [hfnf, hlen2, ne_eq, not_false_eq_true, and_self, if_true,
          ite_true, hsome]
        rw [hrec]
        simp [hrcneg.ne, hrcneg]

/-- A file with a three-component path under `3F00`, used as a C2/C3
witness target; the profile holds no template for its parent. -/
def fileC2 : File :=
  { path := [0x3F, 0x00, 0x50, 0x15, 0xAA, 0xAA], size := 0, acl := [] }

/-- Witness for C2: with a card on which every selection reports
`FILE_NOT_FOUND` and a profile holding no template for the parent path,
creation propagates `FILE_NOT_FOUND` after the single parent selection. -/
theorem sc_pkcs15init_create_file_spec_witness :
    sc_pkcs15init_create_file envU 1 fileC2 st0 =
      (SC_ERROR_FILE_NOT_FOUND,
        { st0 with events := [Event.selectFile [0x3F, 0x00, 0x50, 0x15]] }) := by
  have h := ((sc_pkcs15init_create_file_spec envU 0 fileC2 st0 (by decide)
      (by decide)).2 SC_ERROR_FILE_NOT_FOUND unitFile
      { st0 with events := [Event.selectFile [0x3F, 0x00, 0x50, 0x15]] }
      (by decide)).2.2 rfl (by decide)
  exact h.1 (by decide)

/-- C3: `sc_pkcs15init_update_file` first selects the target.  On
selection success it authenticates the UPDATE ACL and then writes the
whole payload as a binary update at offset zero.  A selection error other
than `FILE_NOT_FOUND` is propagated.  On `FILE_NOT_FOUND` the declared
size is raised to at least the payload length (a larger declared size is
left unchanged), the file is created via `sc_pkcs15init_create_file` and
re-selected, and the same authenticate-then-write tail runs on the
resized file. -/
theorem sc_pkcs15init_update_file_spec {κ : Type} (env : Env κ) (fuel : Nat)
    (file : File) (data : List Nat) (s : St κ) :
    ∀ r f0 s1, scSelect env file.path s = (r, f0, s1) →
      ((0 ≤ r →
        sc_pkcs15init_update_file env fuel file data s =
          sc_pkcs15init_update_file_tail env file data s1
        ∧ ∀ s2, sc_pkcs15init_authenticate env file SC_AC_OP_UPDATE s1 = (0, s2) →
            sc_pkcs15init_update_file env fuel file data s =
              ((scUpdateBinary env 0 data s2).1, file, (scUpdateBinary env 0 data s2).2)
            ∧ (scUpdateBinary env 0 data s2).2.events =
                s2.events ++ [Event.updateBinary 0 data])
      ∧ (r < 0 → r ≠ SC_ERROR_FILE_NOT_FOUND →
          (sc_pkcs15init_update_file env fuel file data s).1 = r
          ∧ (sc_pkcs15init_update_file env fuel file data s).2.2 = s1)
      ∧ (r = SC_ERROR_FILE_NOT_FOUND →
          sc_pkcs15init_update_file env fuel file data s =
            (let file2 := if file.size < data.length then
                { file with size := data.length } else file
             let rc := sc_pkcs15init_create_file env fuel file2 s1
             if rc.1 < 0 then (rc.1, file2, rc.2)
             else
               let rs2 := scSelect env file2.path rc.2
               if rs2.1 < 0 then (rs2.1, file2, rs2.2.2)
               else sc_pkcs15init_update_file_tail env file2 data rs2.2.2)
          ∧ data.length ≤ (if file.size < data.length then
                { file with size := data.length } else file).size
          ∧ (if file.size < data.length then
                { file with size := data.length } else file).size =
              max file.size data.length
          ∧ (data.length ≤ file.size →
              (if file.size < data.length then
                { file with size := data.length } else file) = file))) := by
  intro r f0 s1 hsel
  refine ⟨?_, ?_, ?_⟩
  · intro hr0
    constructor
    · unfold sc_pkcs15init_update_file
      simp only [ne_eq]
      rw [hsel]
      simp [not_lt.mpr hr0]
    · intro s2 hauth
      have htail : sc_pkcs15init_update_file env fuel file data s =
          sc_pkcs15init_update_file_tail env file data s1 := by
        unfold sc_pkcs15init_update_file
        simp only [ne_eq]
        rw [hsel]
        simp [not_lt.mpr hr0]
      rw [htail]
      unfold sc_pkcs15init_update_file_tail
      rw [hauth]
      refine ⟨by simp, rfl⟩
  · intro hneg hnfnf
    have h : sc_pkcs15init_update_file env fuel file data s =
        (r, if file.size < data.length then
            { file with size := data.length } else file, s1) := by
      unfold sc_pkcs15init_update_file
      simp only [ne_eq]
      rw [hsel]
      simp [hneg, hnfnf]
    rw [h]
    exact ⟨rfl, rfl⟩
  · intro hfnf
    have hfnfneg : SC_ERROR_FILE_NOT_FOUND < 0 := by
      norm_num [SC_ERROR_FILE_NOT_FOUND]
    refine ⟨?_, ?_, ?_, ?_⟩
    · unfold sc_pkcs15init_update_file
      simp only [ne_eq]
      rw [hsel]
      simp only [hfnf]
      rw [if_pos hfnfneg, if_neg (by simp)]
    · by_cases hlt : file.size < data.length
      · simp [hlt]
      · simp [hlt]
        omega
    · by_cases hlt : file.size < data.length
      · simp [hlt]
        omega
      · simp [hlt]
        omega
    · intro hle
      rw [if_neg (by omega)]

/-- Witness for C3: updating a three-byte payload onto an absent file of
declared size 0 (on a card where selection always fails with
`FILE_NOT_FOUND` and the parent cannot be created) propagates the error
and leaves the file structure resized to the payload length. -/
theorem sc_pkcs15init_update_file_spec_witness :
    (sc_pkcs15init_update_file envU 1 fileC2 [7, 7, 7] st0).1 =
      SC_ERROR_FILE_NOT_FOUND
    ∧ (sc_pkcs15init_update_file envU 1 fileC2 [7, 7, 7] st0).2.1.size = 3 := by
  have h := (sc_pkcs15init_update_file_spec envU 1 fileC2 [7, 7, 7] st0
      SC_ERROR_FILE_NOT_FOUND unitFile
      { st0 with events := [Event.selectFile fileC2.path] } (by decide)).2.2 rfl
  refine ⟨?_, ?_⟩
  · rw [h.1]
    decide
  · rw [h.1]
    decide

/-- Modelled from the spec: `sc_pkcs15_get_objects(p15card, type, NULL, 0)`
(libopensc) returns the number of registered objects of the given type. -/
def sc_pkcs15_get_objects (p15 : P15Card) (ptype : Nat) : Nat :=
  (p15.objects.filter (fun o => o.ptype == ptype)).length

/-- Modelled from the spec: `sc_pkcs15_add_object` registers the object
into the named in-memory directory file slot; the in-memory append always
succeeds. -/
def sc_pkcs15_add_object {κ : Type} (s : St κ) (df : Nat) (obj : P15Object) :
    St κ :=
  { s with p15 :=
    { s.p15 with objects := s.p15.objects ++ [{ obj with df := df }] } }

/-- Modelled from the spec: `sc_pkcs15_find_pin_by_auth_id` finds the PIN
object whose authentication identifier matches. -/
def sc_pkcs15_find_pin_by_auth_id (p15 : P15Card) (aid : List Nat) :
    Option P15Pin :=
  p15.pins.find? (fun p => p.auth_id == aid)

/-- Modelled from the spec: `sc_profile_find_private_key` selects a
private-key template by name. -/
def sc_profile_find_private_key (pro : Profile) (nm : String) :
    Option KeyTemplate :=
  pro.prkey_list.find? (fun t => t.name == nm)

/-- Modelled from the spec: `sc_profile_find_public_key` selects a
public-key template by name. -/
def sc_profile_find_public_key (pro : Profile) (nm : String) :
    Option KeyTemplate :=
  pro.pubkey_list.find? (fun t => t.name == nm)

/-- The label assignment of `sc_pkcs15init_new_{private,public}_key`: an
explicit label wins, else a non-empty template label, else the default. -/
def applyKeyLabel (ka : KeyArgs) (deflt : String) (out : KeyTemplate) :
    KeyTemplate :=
  match ka.label with
  | some l => { out with label := l }
  | none => if out.label = "" then { out with label := deflt } else out

/-- The identifier assignment: an explicit identifier wins; otherwise the
template identifier (or the formatted default `"45"` when the template has
none) gets its last byte increased by the current object count — a `u8`
addition, hence the `% 256`. -/
def applyKeyId (ka : KeyArgs) (index : Nat) (out : KeyTemplate) :
    KeyTemplate :=
  if ka.id ≠ [] then { out with id := ka.id }
  else
    let ip := if out.id = [] then [0x45] else out.id
    { out with id := ip.dropLast ++ [(ip.getLast?.getD 0 + index) % 256] }

@[simp]
theorem applyKeyLabel_auth_id (ka : KeyArgs) (d : String) (out : KeyTemplate) :
    (applyKeyLabel ka d out).auth_id = out.auth_id := by
  unfold applyKeyLabel
  cases ka.label <;> simp only
  split <;> rfl

@[simp]
theorem applyKeyLabel_id (ka : KeyArgs) (d : String) (out : KeyTemplate) :
    (applyKeyLabel ka d out).id = out.id := by
  unfold applyKeyLabel
  cases ka.label <;> simp only
  split <;> rfl

@[simp]
theorem applyKeyLabel_usage (ka : KeyArgs) (d : String) (out : KeyTemplate) :
    (applyKeyLabel ka d out).usage = out.usage := by
  unfold applyKeyLabel
  cases ka.label <;> simp only
  split <;> rfl

@[simp]
theorem applyKeyLabel_key_acl (ka : KeyArgs) (d : String) (out : KeyTemplate) :
    (applyKeyLabel ka d out).key_acl = out.key_acl := by
  unfold applyKeyLabel
  cases ka.label <;> simp only
  split <;> rfl

@[simp]
theorem applyKeyId_auth_id (ka : KeyArgs) (i : Nat) (out : KeyTemplate) :
    (applyKeyId ka i out).auth_id = out.auth_id := by
  unfold applyKeyId
  split <;> rfl

@[simp]
theorem applyKeyId_usage (ka : KeyArgs) (i : Nat) (out : KeyTemplate) :
    (applyKeyId ka i out).usage = out.usage := by
  unfold applyKeyId
  split <;> rfl

@[simp]
theorem applyKeyId_key_acl (ka : KeyArgs) (i : Nat) (out : KeyTemplate) :
    (applyKeyId ka i out).key_acl = out.key_acl := by
  unfold applyKeyId
  split <;> rfl

/-- The identifier produced for a request with no explicit identifier. -/
theorem applyKeyId_default (ka : KeyArgs) (i : Nat) (out : KeyTemplate)
    (hka : ka.id = []) :
    (applyKeyId ka i out).id =
      (if out.id = [] then [0x45] else out.id).dropLast ++
        [((if out.id = [] then [0x45] else out.id).getLast?.getD 0 + i) % 256] := by
  unfold applyKeyId
  rw [if_neg (by simp [hka])]

/-- The common tail of the two object constructors: sanity-check the
identifier and the usage flags, allocate the on-card file through the
capability interface, record its path, and register the object in the
given directory file; on success the chosen identifier is written back
into the request. -/
def newKeyFinish {κ : Type} (env : Env κ) (ptype : Nat) (index : Nat)
    (df : Nat) (ka : KeyArgs) (out : KeyTemplate) (s : St κ) :
    Int × KeyArgs × KeyTemplate × St κ :=
  if out.id = [] then (SC_ERROR_INVALID_ARGUMENTS, ka, out, s)
  else if out.usage = 0 then (SC_ERROR_INVALID_ARGUMENTS, ka, out, s)
  else if (scAllocate env ptype index s).1 < 0 then
    ((scAllocate env ptype index s).1, ka, out, (scAllocate env ptype index s).2.2)
  else
    (0, { ka with id := out.id },
      { out with
          file := some (scAllocate env ptype index s).2.1,
          path := (scAllocate env ptype index s).2.1.path,
          ptype := ptype },
      sc_pkcs15_add_object (scAllocate env ptype index s).2.2 df
        { ptype := ptype, id := out.id, label := out.label, df := 0 })

/-- `sc_pkcs15init_new_private_key`: select a template (by name if given,
else the first of the profile), assign label and identifier, resolve the
controlling PIN from the template's authentication identifier (a missing
PIN is a hard `OBJECT_NOT_FOUND`), then allocate and register in the
PrKDF. -/
def sc_pkcs15init_new_private_key {κ : Type} (env : Env κ) (ptype : Nat)
    (ka : KeyArgs) (s : St κ) : Int × KeyArgs × KeyTemplate × St κ :=
  let index := sc_pkcs15_get_objects s.p15 ptype
  let t? := match ka.template_name with
    | some nm => sc_profile_find_private_key s.profile nm
    | none => s.profile.prkey_list.head?
  match t? with
  | none => (SC_ERROR_OBJECT_NOT_FOUND, ka, emptyTemplate, s)
  | some tmpl =>
    let out := applyKeyId ka index (applyKeyLabel ka "Private Key" tmpl)
    if out.auth_id ≠ [] then
      match sc_pkcs15_find_pin_by_auth_id s.p15 out.auth_id with
      | none => (SC_ERROR_OBJECT_NOT_FOUND, ka, out, s)
      | some pin =>
        newKeyFinish env ptype index SC_PKCS15_PRKDF ka
          { out with
            key_acl := some { method := SC_AC_CHV, key_ref := pin.reference } }
          s
    else newKeyFinish env ptype index SC_PKCS15_PRKDF ka out s

/-- `sc_pkcs15init_new_public_key`: the public-key counterpart; no PIN
resolution, registration goes to the PuKDF. -/
def sc_pkcs15init_new_public_key {κ : Type} (env : Env κ) (ptype : Nat)
    (ka : KeyArgs) (s : St κ) : Int × KeyArgs × KeyTemplate × St κ :=
  let index := sc_pkcs15_get_objects s.p15 ptype
  let t? := match ka.template_name with
    | some nm => sc_profile_find_public_key s.profile nm
    | none => s.profile.pubkey_list.head?
  match t? with
  | none => (SC_ERROR_OBJECT_NOT_FOUND, ka, emptyTemplate, s)
  | some tmpl =>
    let out := applyKeyId ka index (applyKeyLabel ka "Public Key" tmpl)
    newKeyFinish env ptype index SC_PKCS15_PUKDF ka out s

/-- Issue `n` sequential private-key requests with no explicit identifier,
collecting each request's result code and assigned identifier. -/
def runNewKeys {κ : Type} (env : Env κ) (ptype : Nat) :
    Nat → St κ → List (Int × List Nat) × St κ
  | 0, s => ([], s)
  | n + 1, s =>
    let r := sc_pkcs15init_new_private_key env ptype emptyKeyArgs s
    let rest := runNewKeys env ptype n r.2.2.2
    ((r.1, r.2.1.id) :: rest.1, rest.2)

@[simp]
theorem scAllocate_profile {κ : Type} (env : Env κ) (t i : Nat) (s : St κ) :
    (scAllocate env t i s).2.2.profile = s.profile := rfl

@[simp]
theorem scAllocate_p15 {κ : Type} (env : Env κ) (t i : Nat) (s : St κ) :
    (scAllocate env t i s).2.2.p15 = s.p15 := rfl

@[simp]
theorem add_object_profile {κ : Type} (s : St κ) (df : Nat) (o : P15Object) :
    (sc_pkcs15_add_object s df o).profile = s.profile := rfl

/-- Registering an object raises the count of its type by one. -/
theorem get_objects_add {κ : Type} (s : St κ) (df : Nat) (o : P15Object) :
    sc_pkcs15_get_objects (sc_pkcs15_add_object s df o).p15 o.ptype =
      sc_pkcs15_get_objects s.p15 o.ptype + 1 := by
  simp [sc_pkcs15_get_objects, sc_pkcs15_add_object, List.filter_append]

/-- One successful identifier-defaulting private-key request: with the
profile's first template carrying no controlling authentication
identifier, a nonzero usage and an always-succeeding allocator, the
request succeeds, assigns the template identifier (default `45`) with its
last byte increased by the current object count modulo 256, keeps the
profile, and raises the object count by one. -/
theorem new_private_key_benign {κ : Type} (env : Env κ) (ptype : Nat)
    (T : KeyTemplate) (ts : List KeyTemplate)
    (hauth : T.auth_id = []) (husage : T.usage ≠ 0)
    (halloc : ∀ k i, (env.allocate_file k ptype i).1 = 0) (s : St κ)
    (hT : s.profile.prkey_list = T :: ts) :
    (sc_pkcs15init_new_private_key env ptype emptyKeyArgs s).1 = 0
    ∧ (sc_pkcs15init_new_private_key env ptype emptyKeyArgs s).2.1.id =
        (if T.id = [] then [0x45] else T.id).dropLast ++
          [((if T.id = [] then [0x45] else T.id).getLast?.getD 0 +
            sc_pkcs15_get_objects s.p15 ptype) % 256]
    ∧ (sc_pkcs15init_new_private_key env ptype emptyKeyArgs s).2.2.2.profile
        = s.profile
    ∧ sc_pkcs15_get_objects
        (sc_pkcs15init_new_private_key env ptype emptyKeyArgs s).2.2.2.p15
        ptype = sc_pkcs15_get_objects s.p15 ptype + 1 := by
  unfold sc_pkcs15init_new_private_key newKeyFinish
  rw [hT]
  simp only [emptyKeyArgs, List.head?_cons, applyKeyId_auth_id,
    applyKeyLabel_auth_id, hauth, ne_eq, not_true_eq_false, if_false,
    ite_false, not_false_eq_true, if_true, ite_true]
  simp only [applyKeyId, applyKeyLabel_id, ne_eq, not_true_eq_false,
    ite_false, if_false]
  simp only [List.append_eq_nil, List.cons_ne_nil, and_false, if_false,
    ite_false, applyKeyLabel_usage, husage, scAllocate, halloc]
  norm_num
  simp [sc_pkcs15_add_object, sc_pkcs15_get_objects, List.filter_append]

/-- Formula for a run of identifier-defaulting private-key requests: all
succeed, and the k-th assigned identifier is the template identifier
(default `45`) with its last byte increased, modulo 256, by the initial
object count plus k. -/
theorem runNewKeys_formula {κ : Type} (env : Env κ) (ptype : Nat)
    (T : KeyTemplate) (ts : List KeyTemplate)
    (hauth : T.auth_id = []) (husage : T.usage ≠ 0)
    (halloc : ∀ k i, (env.allocate_file k ptype i).1 = 0) :
    ∀ (N : Nat) (s : St κ), s.profile.prkey_list = T :: ts →
      (∀ p ∈ (runNewKeys env ptype N s).1, p.1 = 0)
      ∧ (runNewKeys env ptype N s).1.map Prod.snd =
          (List.range N).map (fun k =>
            (if T.id = [] then [0x45] else T.id).dropLast ++
              [((if T.id = [] then [0x45] else T.id).getLast?.getD 0 +
                (sc_pkcs15_get_objects s.p15 ptype + k)) % 256]) := by
  intro N
  induction N with
  | zero => intro s hp; simp [runNewKeys]
  | succ n ih =>
    intro s hp
    have hstep := new_private_key_benign env ptype T ts hauth husage halloc s hp
    have hp' : (sc_pkcs15init_new_private_key env ptype emptyKeyArgs
        s).2.2.2.profile.prkey_list = T :: ts := by
      rw [hstep.2.2.1, hp]
    have ihs := ih (sc_pkcs15init_new_private_key env ptype emptyKeyArgs s).2.2.2 hp'
    constructor
    · intro p hmem
      simp only [runNewKeys, List.mem_cons] at hmem
      rcases hmem with h | h
      · rw [h]
        exact hstep.1
      · exact ihs.1 p h
    · simp only [runNewKeys, List.map_cons]
      rw [List.range_succ_eq_map, List.map_cons, List.map_map]
      refine congrArg₂ List.cons ?_ ?_
      · rw [hstep.2.1]
        simp
      · rw [ihs.2, hstep.2.2.2]
        apply List.map_congr_left
        intro a _
        have h1 : sc_pkcs15_get_objects s.p15 ptype + 1 + a =
            sc_pkcs15_get_objects s.p15 ptype + (a + 1) := by omega
        simp only [Function.comp_apply, h1]

/-- C4 (amended): starting from a card with no object of the requested
type, N sequential identifier-defaulting private-key requests against the
profile's first template all succeed and assign the template identifier
(default `45`) with its trailing byte increased by the allocation order
0, 1, 2, … modulo 256.  The identifiers differ only in the trailing byte,
and they are pairwise distinct provided N ≤ 256 — the `u8` trailing byte
wraps, so a run longer than 256 requests repeats identifiers. -/
theorem new_key_id_allocation_amended {κ : Type} (env : Env κ) (ptype : Nat)
    (T : KeyTemplate) (ts : List KeyTemplate) (N : Nat) (s : St κ)
    (hT : s.profile.prkey_list = T :: ts)
    (hauth : T.auth_id = []) (husage : T.usage ≠ 0)
    (halloc : ∀ k i, (env.allocate_file k ptype i).1 = 0)
    (hcount : sc_pkcs15_get_objects s.p15 ptype = 0)
    (hN : N ≤ 256) :
    (∀ p ∈ (runNewKeys env ptype N s).1, p.1 = 0)
    ∧ (runNewKeys env ptype N s).1.map Prod.snd =
        (List.range N).map (fun k =>
          (if T.id = [] then [0x45] else T.id).dropLast ++
            [((if T.id = [] then [0x45] else T.id).getLast?.getD 0 + k) % 256])
    ∧ ((runNewKeys env ptype N s).1.map Prod.snd).Nodup
    ∧ ∀ i ∈ (runNewKeys env ptype N s).1.map Prod.snd,
        i.dropLast = (if T.id = [] then [0x45] else T.id).dropLast := by
  have h := runNewKeys_formula env ptype T ts hauth husage halloc N s hT
  rw [hcount] at h
  simp only [Nat.zero_add] at h
  have hids := h.2
  refine ⟨h.1, hids, ?_, ?_⟩
  · rw [hids]
    refine List.Nodup.map_on ?_ (List.nodup_range N)
    intro i hi j hj heq
    have hi' : i < N := List.mem_range.mp hi
    have hj' : j < N := List.mem_range.mp hj
    have heq2 := List.append_cancel_left heq
    have heq3 : ((if T.id = [] then [0x45] else T.id).getLast?.getD 0 + i) % 256 =
        ((if T.id = [] then [0x45] else T.id).getLast?.getD 0 + j) % 256 := by
      simpa using heq2
    omega
  · intro i hi
    rw [hids] at hi
    rcases List.mem_map.mp hi with ⟨k, _, rfl⟩
    exact List.dropLast_concat

/-- The private-key template for the C4 witnesses: identifier `45`, no
controlling authentication identifier, nonzero usage. -/
def tmplC4 : KeyTemplate :=
  { emptyTemplate with id := [0x45], usage := 1 }

def profC4 : Profile :=
  { emptyProfile with prkey_list := [tmplC4] }

def stC4 : St Unit :=
  { k := (), profile := profC4, p15 := emptyP15, events := [] }

/-- Witness for C4 (amended): two sequential requests yield `45` and `46`,
distinct and differing only in the trailing byte. -/
theorem new_key_id_allocation_amended_witness :
    (runNewKeys envU SC_PKCS15_TYPE_PRKEY_RSA 2 stC4).1.map Prod.snd =
      [[0x45], [0x46]]
    ∧ ((runNewKeys envU SC_PKCS15_TYPE_PRKEY_RSA 2 stC4).1.map Prod.snd).Nodup := by
  have h := new_key_id_allocation_amended envU SC_PKCS15_TYPE_PRKEY_RSA tmplC4
    [] 2 stC4 rfl (by decide) (by decide) (fun _ _ => rfl) (by decide)
    (by norm_num)
  refine ⟨?_, h.2.2.1⟩
  rw [h.2.1]
  decide

set_option maxRecDepth 8192 in
/-- Counterexample for C4 as stated: 257 sequential identifier-defaulting
requests all succeed, but the first and the 257th identifier coincide
(the trailing byte wraps modulo 256), so the identifiers are not
pairwise distinct. -/
theorem new_key_id_allocation_counterexample :
    ((runNewKeys envU SC_PKCS15_TYPE_PRKEY_RSA 257 stC4).1.all
        (fun p => p.1 == 0)) = true
    ∧ ((runNewKeys envU SC_PKCS15_TYPE_PRKEY_RSA 257 stC4).1.map
        Prod.snd).getD 0 [] =
      ((runNewKeys envU SC_PKCS15_TYPE_PRKEY_RSA 257 stC4).1.map
        Prod.snd).getD 256 []
    ∧ ¬ ((runNewKeys envU SC_PKCS15_TYPE_PRKEY_RSA 257 stC4).1.map
        Prod.snd).Nodup := by
  have h := runNewKeys_formula envU SC_PKCS15_TYPE_PRKEY_RSA tmplC4 []
    (by decide) (by decide) (fun _ _ => rfl) 257 stC4 rfl
  refine ⟨?_, ?_, ?_⟩
  · rw [List.all_eq_true]
    intro p hp
    rw [beq_iff_eq]
    exact h.1 p hp
  · rw [h.2]
    decide
  · rw [h.2]
    decide

/-- A successful `newKeyFinish` leaves the object's ACL entry as it was
handed in (it only fills file, path and type). -/
theorem newKeyFinish_success_key_acl {κ : Type} (env : Env κ)
    (ptype index df : Nat) (ka : KeyArgs) (out : KeyTemplate) (s : St κ)
    (h0 : (newKeyFinish env ptype index df ka out s).1 = 0) :
    (newKeyFinish env ptype index df ka out s).2.2.1.key_acl =
      out.key_acl := by
  unfold newKeyFinish at h0 ⊢
  by_cases h1 : out.id = []
  · rw [if_pos h1] at h0
    norm_num [SC_ERROR_INVALID_ARGUMENTS] at h0
  · rw [if_neg h1] at h0 ⊢
    by_cases h2 : out.usage = 0
    · rw [if_pos h2] at h0
      norm_num [SC_ERROR_INVALID_ARGUMENTS] at h0
    · rw [if_neg h2] at h0 ⊢
      by_cases h3 : (scAllocate env ptype index s).1 < 0
      · rw [if_pos h3] at h0
        simp only at h0
        omega
      · rw [if_neg h3]

/-- C5: for a new private-key object whose selected template declares a
controlling authentication identifier, the access reference is resolved by
finding the PIN with that authentication identifier: if none exists the
request fails hard with `OBJECT_NOT_FOUND` and the state is returned
untouched — in particular no on-card file was allocated; if one exists and
the request succeeds, the object's ACL entry is `CHV` with that PIN's
reference number. -/
theorem new_private_key_pin_resolution {κ : Type} (env : Env κ)
    (ptype : Nat) (ka : KeyArgs) (s : St κ)
    (T : KeyTemplate) (ts : List KeyTemplate)
    (hT : s.profile.prkey_list = T :: ts)
    (hname : ka.template_name = none)
    (hauth : T.auth_id ≠ []) :
    (sc_pkcs15_find_pin_by_auth_id s.p15 T.auth_id = none →
      (sc_pkcs15init_new_private_key env ptype ka s).1 =
        SC_ERROR_OBJECT_NOT_FOUND
      ∧ (sc_pkcs15init_new_private_key env ptype ka s).2.2.2 = s)
    ∧ ∀ pin, sc_pkcs15_find_pin_by_auth_id s.p15 T.auth_id = some pin →
        (sc_pkcs15init_new_private_key env ptype ka s).1 = 0 →
        (sc_pkcs15init_new_private_key env ptype ka s).2.2.1.key_acl =
          some { method := SC_AC_CHV, key_ref := pin.reference } := by
  constructor
  · intro hfind
    unfold sc_pkcs15init_new_private_key
    rw [hname, hT]
    simp only [List.head?_cons, applyKeyId_auth_id, applyKeyLabel_auth_id,
      ne_eq, hauth, not_false_eq_true, if_true, ite_true]
    rw [hfind]
    exact ⟨rfl, rfl⟩
  · intro pin hfind h0
    unfold sc_pkcs15init_new_private_key at h0 ⊢
    rw [hname, hT] at h0 ⊢
    simp only [List.head?_cons, applyKeyId_auth_id, applyKeyLabel_auth_id,
      ne_eq, hauth, not_false_eq_true, if_true, ite_true] at h0 ⊢
    rw [hfind] at h0 ⊢
    simp only [] at h0 ⊢
    have hfin := newKeyFinish_success_key_acl env ptype
      (sc_pkcs15_get_objects s.p15 ptype) SC_PKCS15_PRKDF ka _ s h0
    rw [hfin]

/-- Template and states for the C5 witness: the template's controlling
authentication identifier is `01`. -/
def tmplC5 : KeyTemplate :=
  { emptyTemplate with id := [0x45], usage := 1, auth_id := [1] }

def profC5 : Profile :=
  { emptyProfile with prkey_list := [tmplC5] }

def stC5a : St Unit :=
  { k := (), profile := profC5, p15 := emptyP15, events := [] }

def p15C5 : P15Card :=
  { emptyP15 with pins := [{ auth_id := [1], reference := 1 }] }

def stC5b : St Unit :=
  { k := (), profile := profC5, p15 := p15C5, events := [] }

/-- Witness for C5: with no PIN object carrying the template's
authentication identifier the request fails with `OBJECT_NOT_FOUND` and
touches nothing; with such a PIN (reference 1) the stored object's ACL
entry is `CHV` with reference 1. -/
theorem new_private_key_pin_resolution_witness :
    ((sc_pkcs15init_new_private_key envU SC_PKCS15_TYPE_PRKEY_RSA
        emptyKeyArgs stC5a).1 = SC_ERROR_OBJECT_NOT_FOUND
      ∧ (sc_pkcs15init_new_private_key envU SC_PKCS15_TYPE_PRKEY_RSA
        emptyKeyArgs stC5a).2.2.2 = stC5a)
    ∧ (sc_pkcs15init_new_private_key envU SC_PKCS15_TYPE_PRKEY_RSA
        emptyKeyArgs stC5b).2.2.1.key_acl =
      some { method := SC_AC_CHV, key_ref := 1 } := by
  refine ⟨?_, ?_⟩
  · exact (new_private_key_pin_resolution envU SC_PKCS15_TYPE_PRKEY_RSA
      emptyKeyArgs stC5a tmplC5 [] rfl rfl (by decide)).1 (by decide)
  · exact (new_private_key_pin_resolution envU SC_PKCS15_TYPE_PRKEY_RSA
      emptyKeyArgs stC5b tmplC5 [] rfl rfl (by decide)).2
      { auth_id := [1], reference := 1 } (by decide) (by decide)

/-- The backing storage segments of a directory file
(`p15card->df[t].file[0..count-1]`). -/
def getDFfiles (p15 : P15Card) (t : Nat) : List File :=
  (p15.dfFiles.lookup t).getD []

/-- Replace the backing segments of a directory file. -/
def setDFfiles (t : Nat) (fs : List File) (p15 : P15Card) : P15Card :=
  { p15 with dfFiles := (t, fs) :: p15.dfFiles.filter (fun e => e.1 != t) }

/-- The profile-declared file for a directory-file kind
(`profile->df[t]`, NULL when the profile declares none). -/
def lookupProfileDF (pro : Profile) (t : Nat) : Option File :=
  pro.df.lookup t

/-- The records of a directory file: the registered objects it holds. -/
def dfRecords (p15 : P15Card) (t : Nat) : List P15Object :=
  p15.objects.filter (fun o => o.df == t)

/-- Write the mutated file structure back into segment `j`
(`df->file[j]` is mutated in place by `sc_pkcs15init_update_file`). -/
def setDFfileAt (p15 : P15Card) (t : Nat) (j : Nat) (f : File) : P15Card :=
  setDFfiles t ((getDFfiles p15 t).set j f) p15

/-- `sc_pkcs15init_update_odf`: encode the object directory file and
write it to its dedicated file (the encoder is oracle-modelled). -/
def sc_pkcs15init_update_odf {κ : Type} (env : Env κ) (fuel : Nat)
    (s : St κ) : Int × St κ :=
  if (env.encode_odf s.p15).1 < 0 then ((env.encode_odf s.p15).1, s)
  else
    let ru := sc_pkcs15init_update_file env fuel s.p15.file_odf
      (env.encode_odf s.p15).2 s
    (ru.1, { ru.2.2 with p15 := { ru.2.2.p15 with file_odf := ru.2.1 } })

/-- The per-segment loop of `sc_pkcs15init_update_df`: for each backing
segment in order, encode that segment's records and write them via
`sc_pkcs15init_update_file`; the first encoding or write failure aborts
the whole loop. -/
def update_df_segments {κ : Type} (env : Env κ) (fuel : Nat) (t : Nat) :
    Nat → List File → Int → St κ → Int × St κ
  | _, [], r0, s => (r0, s)
  | j, f :: rest, _, s =>
    if (env.encode_df t j (dfRecords s.p15 t)).1 < 0 then
      ((env.encode_df t j (dfRecords s.p15 t)).1, s)
    else
      let ru := sc_pkcs15init_update_file env fuel f
        (env.encode_df t j (dfRecords s.p15 t)).2 s
      let s2 := { ru.2.2 with p15 := setDFfileAt ru.2.2.p15 t j ru.2.1 }
      if ru.1 < 0 then (ru.1, s2)
      else update_df_segments env fuel t (j + 1) rest ru.1 s2

/-- `sc_pkcs15init_update_df`: a directory with zero backing segments gets
the profile-declared file bound as its first segment (`NOT_SUPPORTED` if
the profile declares none) and the ODF refreshed before any record write;
then every backing segment is encoded and written in order. -/
def sc_pkcs15init_update_df {κ : Type} (env : Env κ) (fuel : Nat) (t : Nat)
    (s : St κ) : Int × St κ :=
  if (getDFfiles s.p15 t).length = 0 then
    match lookupProfileDF s.profile t with
    | none => (SC_ERROR_NOT_SUPPORTED, s)
    | some f =>
      let s1 := { s with p15 := setDFfiles t [f] s.p15 }
      let ro := sc_pkcs15init_update_odf env fuel s1
      if ro.1 < 0 then (ro.1, ro.2)
      else update_df_segments env fuel t 0 (getDFfiles ro.2.p15 t) ro.1 ro.2
  else update_df_segments env fuel t 0 (getDFfiles s.p15 t) 0 s

/-- `compare_id`: the identifier comparison used by the key lookup — only
RSA private and public key objects are compared, everything else never
matches. -/
def sc_pkcs15init_compare_id (o : P15Object) (id : List Nat) : Bool :=
  if o.ptype == SC_PKCS15_TYPE_PRKEY_RSA then o.id == id
  else if o.ptype == SC_PKCS15_TYPE_PUBKEY_RSA then o.id == id
  else false

/-- `sc_pkcs15init_find_key`: the first registered object of the type
whose identifier matches. -/
def sc_pkcs15init_find_key (p15 : P15Card) (ptype : Nat) (id : List Nat) :
    Option P15Object :=
  (p15.objects.filter (fun o => o.ptype == ptype)).find?
    (fun o => sc_pkcs15init_compare_id o id)

/-- The `(algorithm | is_private << 16)` switch of
`sc_pkcs15init_setup_key`.  The DSA arms sit behind
`#ifdef SC_PKCS15_TYPE_PRKEY_DSA` in the C; the header is not under
`src/` and is modelled, following the spec's data model, as defining
them. -/
def typeOfAlgorithm (alg : Nat) (is_private : Bool) : Option Nat :=
  if alg == SC_ALGORITHM_RSA && is_private then some SC_PKCS15_TYPE_PRKEY_RSA
  else if alg == SC_ALGORITHM_DSA && is_private then
    some SC_PKCS15_TYPE_PRKEY_DSA
  else if alg == SC_ALGORITHM_RSA then some SC_PKCS15_TYPE_PUBKEY_RSA
  else if alg == SC_ALGORITHM_DSA then some SC_PKCS15_TYPE_PUBKEY_DSA
  else none

/-- `type & SC_PKCS15_TYPE_CLASS_MASK`. -/
def classOf (t : Nat) : Nat := Nat.land t SC_PKCS15_TYPE_CLASS_MASK

/-- `sc_pkcs15init_setup_key`: map `(algorithm, is_private)` to a PKCS#15
type (`NOT_SUPPORTED` for unsupported combinations); an identifier
matching an already-registered object means an update, which is
unimplemented (`NOT_SUPPORTED`); otherwise construct a fresh object of
the right class. -/
def sc_pkcs15init_setup_key {κ : Type} (env : Env κ) (ka : KeyArgs)
    (is_private : Bool) (s : St κ) : Int × KeyArgs × KeyTemplate × St κ :=
  match typeOfAlgorithm ka.algorithm is_private with
  | none => (SC_ERROR_NOT_SUPPORTED, ka, emptyTemplate, s)
  | some ptype =>
    match sc_pkcs15init_find_key s.p15 ptype ka.id with
    | some _ => (SC_ERROR_NOT_SUPPORTED, ka, emptyTemplate, s)
    | none =>
      if classOf ptype == SC_PKCS15_TYPE_PRKEY then
        sc_pkcs15init_new_private_key env ptype ka s
      else if classOf ptype == SC_PKCS15_TYPE_PUBKEY then
        sc_pkcs15init_new_public_key env ptype ka s
      else (SC_ERROR_NOT_SUPPORTED, ka, emptyTemplate, s)

/-- `sc_pkcs15init_store_private_key`: set up the key object, dispatch to
the card family's native store operation selected by the provider key's
type (absence of the operation, or any other type, is `NOT_SUPPORTED`),
record the modulus size, and re-encode the PrKDF. -/
def sc_pkcs15init_store_private_key {κ : Type} (env : Env κ) (fuel : Nat)
    (ka : KeyArgs) (s : St κ) : Int × KeyArgs × St κ :=
  let rs := sc_pkcs15init_setup_key env ka true s
  if rs.1 < 0 then (rs.1, rs.2.1, rs.2.2.2)
  else
    match rs.2.1.pkey with
    | none => (SC_ERROR_INTERNAL, rs.2.1, rs.2.2.2)
    | some pk =>
      let rst : Int × KeyTemplate × St κ :=
        if pk.ptype == EVP_PKEY_RSA then
          match env.store_rsa with
          | some op =>
            ((op rs.2.2.2.k rs.2.2.1 pk).1,
              { rs.2.2.1 with modulus_length := env.rsaSize pk * 8 },
              { rs.2.2.2 with k := (op rs.2.2.2.k rs.2.2.1 pk).2 })
          | none => (SC_ERROR_NOT_SUPPORTED, rs.2.2.1, rs.2.2.2)
        else if pk.ptype == EVP_PKEY_DSA then
          match env.store_dsa with
          | some op =>
            ((op rs.2.2.2.k rs.2.2.1 pk).1,
              { rs.2.2.1 with modulus_length := env.dsaSize pk * 8 },
              { rs.2.2.2 with k := (op rs.2.2.2.k rs.2.2.1 pk).2 })
          | none => (SC_ERROR_NOT_SUPPORTED, rs.2.2.1, rs.2.2.2)
        else (SC_ERROR_NOT_SUPPORTED, rs.2.2.1, rs.2.2.2)
      if rst.1 < 0 then (rst.1, rs.2.1, rst.2.2)
      else
        let rdf := sc_pkcs15init_update_df env fuel SC_PKCS15_PRKDF rst.2.2
        (rdf.1, rs.2.1, rdf.2)

/-- `sc_pkcs15init_store_public_key`: set up the key object; only an RSA
provider key has a DER serialization — it is written as the key file's
full content and the PuKDF is re-encoded; any other key type is
`NOT_SUPPORTED`. -/
def sc_pkcs15init_store_public_key {κ : Type} (env : Env κ) (fuel : Nat)
    (ka : KeyArgs) (s : St κ) : Int × KeyArgs × St κ :=
  let rs := sc_pkcs15init_setup_key env ka false s
  if rs.1 < 0 then (rs.1, rs.2.1, rs.2.2.2)
  else
    match rs.2.1.pkey with
    | none => (SC_ERROR_INTERNAL, rs.2.1, rs.2.2.2)
    | some pk =>
      if pk.ptype == EVP_PKEY_RSA then
        let ru := sc_pkcs15init_update_file env fuel
          (({ rs.2.2.1 with modulus_length := env.rsaSize pk * 8
              : KeyTemplate }).file.getD unitFile) (env.i2dRSA pk) rs.2.2.2
        if ru.1 < 0 then (ru.1, rs.2.1, ru.2.2)
        else
          let rdf := sc_pkcs15init_update_df env fuel SC_PKCS15_PUKDF ru.2.2
          (rdf.1, rs.2.1, rdf.2)
      else (SC_ERROR_NOT_SUPPORTED, rs.2.1, rs.2.2.2)

/-- `sc_pkcs15init_generate_key_soft`: invoke the cryptographic provider
for the requested algorithm (a provider failure is the generic -1; any
other algorithm is `NOT_SUPPORTED`), then store the private half. -/
def sc_pkcs15init_generate_key_soft {κ : Type} (env : Env κ) (fuel : Nat)
    (ka : KeyArgs) (s : St κ) : Int × KeyArgs × St κ :=
  if ka.algorithm == SC_ALGORITHM_RSA then
    match env.genRSA ka.keybits with
    | none => (-1, ka, s)
    | some payload =>
      let rr := sc_pkcs15init_store_private_key env fuel
        { ka with pkey := some { ptype := EVP_PKEY_RSA, payload := payload } } s
      if rr.1 < 0 then rr else (0, rr.2.1, rr.2.2)
  else if ka.algorithm == SC_ALGORITHM_DSA then
    match env.genDSA ka.keybits with
    | none => (-1, ka, s)
    | some payload =>
      let rr := sc_pkcs15init_store_private_key env fuel
        { ka with pkey := some { ptype := EVP_PKEY_DSA, payload := payload } } s
      if rr.1 < 0 then rr else (0, rr.2.1, rr.2.2)
  else (SC_ERROR_NOT_SUPPORTED, ka, s)

/-- `sc_pkcs15init_generate_key`: on-board generation is unimplemented
(`NOT_SUPPORTED`); otherwise fall back to software generation. -/
def sc_pkcs15init_generate_key {κ : Type} (env : Env κ) (fuel : Nat)
    (ka : KeyArgs) (s : St κ) : Int × KeyArgs × St κ :=
  if ka.onboard_keygen then (SC_ERROR_NOT_SUPPORTED, ka, s)
  else sc_pkcs15init_generate_key_soft env fuel ka s

/-- The retry loop of `do_generate_key`: call the generator; stop unless
it reported `NOT_SUPPORTED` while on-board generation was requested; in
that case print the downgrade notice (unless quiet), clear the on-board
flag and retry.  The third component counts the notices the loop printed;
the `Nat` bound models the unbounded C `while (1)`. -/
def do_generate_key_loop {κ : Type} (env : Env κ) (fuel : Nat) :
    Nat → KeyArgs → St κ → Int × KeyArgs × Nat × St κ
  | 0, ka, s => (SC_ERROR_INTERNAL, ka, 0, s)
  | n + 1, ka, s =>
    let rg := sc_pkcs15init_generate_key env fuel ka s
    if rg.1 ≠ SC_ERROR_NOT_SUPPORTED ∨ rg.2.1.onboard_keygen = false then
      (rg.1, rg.2.1, 0, rg.2.2)
    else
      let nt := if env.opt_quiet then 0 else 1
      let rest := do_generate_key_loop env fuel n
        { rg.2.1 with onboard_keygen := false } rg.2.2
      (rest.1, rest.2.1, nt + rest.2.2.1, rest.2.2.2)

/-- `newKeyFinish` never touches the request's on-board flag. -/
theorem newKeyFinish_ka_onboard {κ : Type} (env : Env κ) (t i df : Nat)
    (ka : KeyArgs) (out : KeyTemplate) (s : St κ) :
    (newKeyFinish env t i df ka out s).2.1.onboard_keygen =
      ka.onboard_keygen := by
  unfold newKeyFinish
  repeat' split
  all_goals rfl

/-- `sc_pkcs15init_new_private_key` never touches the on-board flag. -/
theorem new_private_key_ka_onboard {κ : Type} (env : Env κ) (t : Nat)
    (ka : KeyArgs) (s : St κ) :
    (sc_pkcs15init_new_private_key env t ka s).2.1.onboard_keygen =
      ka.onboard_keygen := by
  unfold sc_pkcs15init_new_private_key
  simp only []
  repeat' split
  all_goals first
    | rfl
    | apply newKeyFinish_ka_onboard

/-- `sc_pkcs15init_new_public_key` never touches the on-board flag. -/
theorem new_public_key_ka_onboard {κ : Type} (env : Env κ) (t : Nat)
    (ka : KeyArgs) (s : St κ) :
    (sc_pkcs15init_new_public_key env t ka s).2.1.onboard_keygen =
      ka.onboard_keygen := by
  unfold sc_pkcs15init_new_public_key
  simp only []
  repeat' split
  all_goals first
    | rfl
    | apply newKeyFinish_ka_onboard

/-- `sc_pkcs15init_setup_key` never touches the on-board flag. -/
theorem setup_key_ka_onboard {κ : Type} (env : Env κ) (ka : KeyArgs)
    (b : Bool) (s : St κ) :
    (sc_pkcs15init_setup_key env ka b s).2.1.onboard_keygen =
      ka.onboard_keygen := by
  unfold sc_pkcs15init_setup_key
  repeat' split
  all_goals first
    | rfl
    | apply new_private_key_ka_onboard
    | apply new_public_key_ka_onboard

/-- `sc_pkcs15init_store_private_key` never touches the on-board flag. -/
theorem store_private_key_ka_onboard {κ : Type} (env : Env κ) (fuel : Nat)
    (ka : KeyArgs) (s : St κ) :
    (sc_pkcs15init_store_private_key env fuel ka s).2.1.onboard_keygen =
      ka.onboard_keygen := by
  unfold sc_pkcs15init_store_private_key
  simp only []
  repeat' split
  all_goals first
    | rfl
    | exact setup_key_ka_onboard env ka true s

/-- `sc_pkcs15init_generate_key_soft` never touches the on-board flag. -/
theorem generate_key_soft_ka_onboard {κ : Type} (env : Env κ) (fuel : Nat)
    (ka : KeyArgs) (s : St κ) :
    (sc_pkcs15init_generate_key_soft env fuel ka s).2.1.onboard_keygen =
      ka.onboard_keygen := by
  unfold sc_pkcs15init_generate_key_soft
  simp only []
  repeat' split
  all_goals first
    | rfl
    | rw [store_private_key_ka_onboard]

/-- C6: the generate-key retry loop.  (1) With on-board generation
requested and quiet mode off, the loop downgrades exactly once: the
on-board path reports `NOT_SUPPORTED`, one downgrade notice is printed,
the on-board flag is cleared, and the result is exactly one software
generation run on the downgraded request — whose returned request still
has the flag cleared, so the loop cannot repeat.  (2) Any result other
than `NOT_SUPPORTED` from the generator terminates the loop immediately
with that result and no notice. -/
theorem do_generate_key_loop_downgrade {κ : Type} (env : Env κ)
    (fuel n : Nat) (ka : KeyArgs) (s : St κ) :
    ((ka.onboard_keygen = true → env.opt_quiet = false →
      do_generate_key_loop env fuel (n + 2) ka s =
        ((sc_pkcs15init_generate_key_soft env fuel
            { ka with onboard_keygen := false } s).1,
          (sc_pkcs15init_generate_key_soft env fuel
            { ka with onboard_keygen := false } s).2.1,
          1,
          (sc_pkcs15init_generate_key_soft env fuel
            { ka with onboard_keygen := false } s).2.2)
      ∧ (sc_pkcs15init_generate_key_soft env fuel
          { ka with onboard_keygen := false } s).2.1.onboard_keygen = false)
    ∧ ∀ r1 ka1 s1, sc_pkcs15init_generate_key env fuel ka s = (r1, ka1, s1) →
        r1 ≠ SC_ERROR_NOT_SUPPORTED →
        do_generate_key_loop env fuel (n + 1) ka s = (r1, ka1, 0, s1)) := by
  have hsoft : (sc_pkcs15init_generate_key_soft env fuel
      { ka with onboard_keygen := false } s).2.1.onboard_keygen = false := by
    rw [generate_key_soft_ka_onboard]
  constructor
  · intro honb hq
    refine ⟨?_, hsoft⟩
    have h1 : sc_pkcs15init_generate_key env fuel ka s =
        (SC_ERROR_NOT_SUPPORTED, ka, s) := by
      unfold sc_pkcs15init_generate_key
      rw [if_pos honb]
    have h2 : sc_pkcs15init_generate_key env fuel
        { ka with onboard_keygen := false } s =
        sc_pkcs15init_generate_key_soft env fuel
          { ka with onboard_keygen := false } s := by
      unfold sc_pkcs15init_generate_key
      rfl
    simp only [do_generate_key_loop]
    rw [h1]
    simp only [ne_eq, not_true_eq_false, honb, Bool.true_eq_false, or_self,
      if_false, ite_false, hq]
    rw [h2]
    simp only [ne_eq, hsoft, or_true, if_true, ite_true]
    simp
  · intro r1 ka1 s1 hg hr
    simp only [do_generate_key_loop]
    rw [hg]
    simp [hr]

/-- The generate request for the C6 witness: RSA, on-board requested; the
provider is made to fail so the software retry returns -1. -/
def kaC6 : KeyArgs :=
  { emptyKeyArgs with
      algorithm := SC_ALGORITHM_RSA,
      keybits := 1024,
      onboard_keygen := true }

/-- Witness for C6: the loop downgrades once (one notice, flag cleared)
and returns the software path's result; a non-`NOT_SUPPORTED` result
(here -1 from the failing provider) terminates the loop directly with no
notice. -/
theorem do_generate_key_loop_downgrade_witness :
    do_generate_key_loop envU 1 2 kaC6 st0 =
      (-1, { kaC6 with onboard_keygen := false }, 1, st0)
    ∧ do_generate_key_loop envU 1 1 { kaC6 with onboard_keygen := false }
        st0 = (-1, { kaC6 with onboard_keygen := false }, 0, st0) := by
  have h := do_generate_key_loop_downgrade envU 1 0 kaC6 st0
  have h2 := do_generate_key_loop_downgrade envU 1 0
    { kaC6 with onboard_keygen := false } st0
  constructor
  · rw [(h.1 rfl rfl).1]
    decide
  · exact h2.2 (-1) { kaC6 with onboard_keygen := false } st0 (by decide)
      (by decide)

/-- Binding the profile file makes it the single backing segment. -/
theorem getDFfiles_setDFfiles (p15 : P15Card) (t : Nat) (fs : List File) :
    getDFfiles (setDFfiles t fs p15) t = fs := by
  simp [getDFfiles, setDFfiles, List.lookup]

/-- C7: `sc_pkcs15init_update_df`.  (a) A directory with zero backing
segments and no profile-declared file fails with `NOT_SUPPORTED`,
untouched.  (b) With a profile-declared file, that file is bound as the
single first segment and the ODF is refreshed before the per-segment
loop; an ODF-refresh failure is propagated with no record write.  (c) A
directory with segments goes straight to the per-segment loop.  (d) The
loop aborts at an encoding failure with nothing written for that or any
later segment.  (e) With the segment encoded, a write failure aborts the
loop, and a write success continues with the next segment in order. -/
theorem sc_pkcs15init_update_df_spec {κ : Type} (env : Env κ)
    (fuel t : Nat) (s : St κ) :
    ((getDFfiles s.p15 t = [] → lookupProfileDF s.profile t = none →
        sc_pkcs15init_update_df env fuel t s = (SC_ERROR_NOT_SUPPORTED, s))
    ∧ (∀ f, getDFfiles s.p15 t = [] → lookupProfileDF s.profile t = some f →
        (getDFfiles ({ s with p15 := setDFfiles t [f] s.p15 } : St κ).p15 t
            = [f]
        ∧ sc_pkcs15init_update_df env fuel t s =
            (let ro := sc_pkcs15init_update_odf env fuel
              { s with p15 := setDFfiles t [f] s.p15 }
             if ro.1 < 0 then (ro.1, ro.2)
             else update_df_segments env fuel t 0 (getDFfiles ro.2.p15 t)
               ro.1 ro.2)
        ∧ ∀ r2 s2, sc_pkcs15init_update_odf env fuel
              { s with p15 := setDFfiles t [f] s.p15 } = (r2, s2) →
            r2 < 0 → sc_pkcs15init_update_df env fuel t s = (r2, s2)))
    ∧ (∀ fs, getDFfiles s.p15 t = fs → fs ≠ [] →
        sc_pkcs15init_update_df env fuel t s =
          update_df_segments env fuel t 0 fs 0 s)
    ∧ (∀ j f rest r0, (env.encode_df t j (dfRecords s.p15 t)).1 < 0 →
        update_df_segments env fuel t j (f :: rest) r0 s =
          ((env.encode_df t j (dfRecords s.p15 t)).1, s))
    ∧ (∀ j f rest r0, 0 ≤ (env.encode_df t j (dfRecords s.p15 t)).1 →
        ∀ ru fu su, sc_pkcs15init_update_file env fuel f
            (env.encode_df t j (dfRecords s.p15 t)).2 s = (ru, fu, su) →
          ((ru < 0 → update_df_segments env fuel t j (f :: rest) r0 s =
              (ru, { su with p15 := setDFfileAt su.p15 t j fu }))
          ∧ (0 ≤ ru → update_df_segments env fuel t j (f :: rest) r0 s =
              update_df_segments env fuel t (j + 1) rest ru
                { su with p15 := setDFfileAt su.p15 t j fu })))) := by
  refine ⟨?_, ?_, ?_, ?_, ?_⟩
  · intro h0 hnone
    unfold sc_pkcs15init_update_df
    rw [h0, hnone]
    simp
  · intro f h0 hsome
    refine ⟨getDFfiles_setDFfiles s.p15 t [f], ?_, ?_⟩
    · unfold sc_pkcs15init_update_df
      rw [h0, hsome]
      simp
    · intro r2 s2 hodf hneg
      unfold sc_pkcs15init_update_df
      rw [h0, hsome]
      simp only [List.length_nil, if_true, ite_true]
      rw [hodf]
      simp [hneg]
  · intro fs hfs hne
    unfold sc_pkcs15init_update_df
    rw [hfs]
    rw [if_neg (by simpa [List.length_eq_zero] using hne)]
  · intro j f rest r0 henc
    simp only [update_df_segments]
    rw [if_pos henc]
  · intro j f rest r0 henc ru fu su hup
    have hnneg : ¬(env.encode_df t j (dfRecords s.p15 t)).1 < 0 :=
      not_lt.mpr henc
    constructor
    · intro hru
      simp only [update_df_segments]
      rw [if_neg hnneg]
      rw [hup]
      simp [hru]
    · intro hru
      simp only [update_df_segments]
      rw [if_neg hnneg]
      rw [hup]
      simp [not_lt.mpr hru]

/-- An environment whose directory-file encoder always fails. -/
def envFail : Env Unit :=
  { envU with encode_df := fun _ _ _ => (-7, []) }

/-- Witness for C7 at a directory kind with no backing segment and no
profile-declared file: `NOT_SUPPORTED`, state untouched; and an encoding
failure aborts a segment loop with nothing written. -/
theorem sc_pkcs15init_update_df_spec_witness :
    sc_pkcs15init_update_df envU 1 SC_PKCS15_PRKDF st0 =
      (SC_ERROR_NOT_SUPPORTED, st0)
    ∧ update_df_segments envFail 1 SC_PKCS15_PRKDF 0 [unitFile] 0 st0 =
      (-7, st0) := by
  constructor
  · exact (sc_pkcs15init_update_df_spec envU 1 SC_PKCS15_PRKDF st0).1
      (by decide) (by decide)
  · exact ((sc_pkcs15init_update_df_spec envFail 1 SC_PKCS15_PRKDF
      st0).2.2.2.1) 0 unitFile [] 0 (by decide)

/-- The state a successful `newKeyFinish` returns: the allocator ran and
the object was registered in the given directory file. -/
theorem newKeyFinish_state_of_success {κ : Type} (env : Env κ)
    (ptype index df : Nat) (ka : KeyArgs) (out : KeyTemplate) (s : St κ)
    (h0 : (newKeyFinish env ptype index df ka out s).1 = 0) :
    (newKeyFinish env ptype index df ka out s).2.2.2 =
      sc_pkcs15_add_object (scAllocate env ptype index s).2.2 df
        { ptype := ptype, id := out.id, label := out.label, df := 0 } := by
  unfold newKeyFinish at h0 ⊢
  by_cases h1 : out.id = []
  · rw [if_pos h1] at h0
    norm_num [SC_ERROR_INVALID_ARGUMENTS] at h0
  · rw [if_neg h1] at h0 ⊢
    by_cases h2 : out.usage = 0
    · rw [if_pos h2] at h0
      norm_num [SC_ERROR_INVALID_ARGUMENTS] at h0
    · rw [if_neg h2] at h0 ⊢
      by_cases h3 : (scAllocate env ptype index s).1 < 0
      · rw [if_pos h3] at h0
        simp only at h0
        omega
      · rw [if_neg h3]

/-- The number of objects registered in the in-memory PuKDF. -/
def pukdfCount (p15 : P15Card) : Nat :=
  (p15.objects.filter (fun o => o.df == SC_PKCS15_PUKDF)).length

/-- Card-write events: native file creation and binary updates. -/
def isCardWrite : Event → Bool
  | Event.createCall _ => true
  | Event.updateBinary _ _ => true
  | _ => false

/-- A successful `sc_pkcs15init_new_public_key` registers exactly one
object in the in-memory PuKDF and touches the card only through the
allocator (its single trace event is the allocation). -/
theorem new_public_key_effects {κ : Type} (env : Env κ) (ptype : Nat)
    (ka : KeyArgs) (s : St κ)
    (h0 : (sc_pkcs15init_new_public_key env ptype ka s).1 = 0) :
    pukdfCount (sc_pkcs15init_new_public_key env ptype ka s).2.2.2.p15 =
      pukdfCount s.p15 + 1
    ∧ (sc_pkcs15init_new_public_key env ptype ka s).2.2.2.events =
        s.events ++ [Event.allocFile ptype
          (sc_pkcs15_get_objects s.p15 ptype)] := by
  unfold sc_pkcs15init_new_public_key at h0 ⊢
  simp only [] at h0 ⊢
  generalize htm : (match ka.template_name with
    | some nm => sc_profile_find_public_key s.profile nm
    | none => s.profile.pubkey_list.head?) = topt at h0 ⊢
  cases topt with
  | none => norm_num [SC_ERROR_OBJECT_NOT_FOUND] at h0
  | some tmpl =>
    have hst := newKeyFinish_state_of_success env ptype
      (sc_pkcs15_get_objects s.p15 ptype) SC_PKCS15_PUKDF ka _ s h0
    rw [hst]
    constructor
    · simp [pukdfCount, sc_pkcs15_add_object, List.filter_append, scAllocate]
    · simp [sc_pkcs15_add_object, scAllocate]

/-- C10: `sc_pkcs15init_store_public_key` on a provider key that is not
RSA returns `NOT_SUPPORTED` — but only after the key object has been set
up: the setup's state is returned as is, it already holds one more
object registered in the in-memory PuKDF, and no card write (native
create or binary update) has happened for the key file or the PuKDF. -/
theorem store_public_key_non_rsa {κ : Type} (env : Env κ) (fuel : Nat)
    (ka : KeyArgs) (s : St κ) (ka' : KeyArgs) (info : KeyTemplate)
    (s' : St κ)
    (hsetup : sc_pkcs15init_setup_key env ka false s = (0, ka', info, s'))
    (pk : PKey) (hpk : ka'.pkey = some pk)
    (hnot : pk.ptype ≠ EVP_PKEY_RSA) :
    sc_pkcs15init_store_public_key env fuel ka s =
      (SC_ERROR_NOT_SUPPORTED, ka', s')
    ∧ pukdfCount s'.p15 = pukdfCount s.p15 + 1
    ∧ s'.events.filter isCardWrite = s.events.filter isCardWrite := by
  have hpub : ∃ ptype,
      sc_pkcs15init_new_public_key env ptype ka s = (0, ka', info, s') := by
    unfold sc_pkcs15init_setup_key at hsetup
    cases hty : typeOfAlgorithm ka.algorithm false with
    | none =>
      rw [hty] at hsetup
      norm_num [Prod.ext_iff, SC_ERROR_NOT_SUPPORTED] at hsetup
    | some ptype =>
      rw [hty] at hsetup
      simp only [] at hsetup
      cases hfk : sc_pkcs15init_find_key s.p15 ptype ka.id with
      | some o =>
        rw [hfk] at hsetup
        norm_num [Prod.ext_iff, SC_ERROR_NOT_SUPPORTED] at hsetup
      | none =>
        rw [hfk] at hsetup
        simp only [] at hsetup
        unfold typeOfAlgorithm at hty
        simp only [Bool.and_false, if_false, ite_false] at hty
        by_cases hrsa : (ka.algorithm == SC_ALGORITHM_RSA) = true
        · rw [if_pos hrsa] at hty
          injection hty with hty
          refine ⟨SC_PKCS15_TYPE_PUBKEY_RSA, ?_⟩
          rw [← hty] at hsetup
          rw [show (classOf SC_PKCS15_TYPE_PUBKEY_RSA ==
              SC_PKCS15_TYPE_PRKEY) = false from by decide,
            show (classOf SC_PKCS15_TYPE_PUBKEY_RSA ==
              SC_PKCS15_TYPE_PUBKEY) = true from by decide] at hsetup
          simpa using hsetup
        · rw [if_neg hrsa] at hty
          by_cases hdsa : (ka.algorithm == SC_ALGORITHM_DSA) = true
          · rw [if_pos hdsa] at hty
            injection hty with hty
            refine ⟨SC_PKCS15_TYPE_PUBKEY_DSA, ?_⟩
            rw [← hty] at hsetup
            rw [show (classOf SC_PKCS15_TYPE_PUBKEY_DSA ==
                SC_PKCS15_TYPE_PRKEY) = false from by decide,
              show (classOf SC_PKCS15_TYPE_PUBKEY_DSA ==
                SC_PKCS15_TYPE_PUBKEY) = true from by decide] at hsetup
            simpa using hsetup
          · rw [if_neg hdsa] at hty
            exact absurd hty (by simp)
  obtain ⟨ptype, hpubeq⟩ := hpub
  have h0 : (sc_pkcs15init_new_public_key env ptype ka s).1 = 0 := by
    rw [hpubeq]
  have hs' : (sc_pkcs15init_new_public_key env ptype ka s).2.2.2 = s' := by
    rw [hpubeq]
  have heff := new_public_key_effects env ptype ka s h0
  refine ⟨?_, ?_, ?_⟩
  · unfold sc_pkcs15init_store_public_key
    simp only []
    rw [hsetup]
    simp only []
    rw [if_neg (by norm_num)]
    rw [hpk]
    simp [hnot]
  · rw [← hs']
    exact heff.1
  · rw [← hs', heff.2]
    simp [List.filter_append, isCardWrite]

/-- Request, template and state for the C10 witness: a DSA provider key. -/
def pkDSA : PKey := { ptype := EVP_PKEY_DSA, payload := 0 }

def kaC10 : KeyArgs :=
  { emptyKeyArgs with algorithm := SC_ALGORITHM_DSA, pkey := some pkDSA }

def tmplC10 : KeyTemplate :=
  { emptyTemplate with id := [0x45], usage := 1 }

def profC10 : Profile :=
  { emptyProfile with pubkey_list := [tmplC10] }

def stC10 : St Unit :=
  { k := (), profile := profC10, p15 := emptyP15, events := [] }

/-- Witness for C10: storing a DSA public key returns `NOT_SUPPORTED`
with the setup's state, in which the in-memory PuKDF already grew by one
object. -/
theorem store_public_key_non_rsa_witness :
    sc_pkcs15init_store_public_key envU 1 kaC10 stC10 =
      (SC_ERROR_NOT_SUPPORTED,
        (sc_pkcs15init_setup_key envU kaC10 false stC10).2.1,
        (sc_pkcs15init_setup_key envU kaC10 false stC10).2.2.2)
    ∧ pukdfCount
        (sc_pkcs15init_setup_key envU kaC10 false stC10).2.2.2.p15 =
      pukdfCount stC10.p15 + 1 := by
  have h := store_public_key_non_rsa envU 1 kaC10 stC10
    (sc_pkcs15init_setup_key envU kaC10 false stC10).2.1
    (sc_pkcs15init_setup_key envU kaC10 false stC10).2.2.1
    (sc_pkcs15init_setup_key envU kaC10 false stC10).2.2.2
    (by decide) pkDSA (by decide) (by decide)
  exact ⟨h.1, h.2.1⟩
